import Mathlib

/-!
# Routing isolation segments smoke test: a trace model

A shallow embedding of `smoke/isolation_segments/isolation_segment.go`.

The file under study is a Ginkgo test tree: one `Describe` with a `BeforeEach`
and an `AfterEach`, and two `Context`s, each with its own `BeforeEach` and two
`It` blocks.  Every block is embedded as a function on an explicit state made
of the closure variables of the `Describe` body and the chronological list of
the calls issued so far.  Calls that leave the file (helpers of the package,
the `cf` command line client, the platform, the random name generator) are
answered by a `World`, whose answers may depend on everything issued before.
-/

namespace IsolationSegments

/-! ## Constants (lines 16-20) -/

def sharedIsolationSegmentGUID : String := "933b4c58-120b-499a-b85d-4b6fc9e2903b"

def binaryHi : String := "Hello from a binary"

def binaryAppBitsPath : String := "../../assets/binary"

/-! ## Data model -/

/-- The calls that leave the test file, in the order they are issued. -/
inductive Action where
  | GetOrgGUIDFromName (name : String) (timeout : Nat)
  | GetSpaceGUIDFromName (name : String) (timeout : Nat)
  | PrefixedRandomName (pfx : String) (resource : String)
  | OrgEntitledToIsolationSegment (orgGUID : String) (isoSegName : String) (timeout : Nat)
  | IsolationSegmentAssignedToSpace (spaceGUID : String) (timeout : Nat)
  | Cf (args : List String)
  | GetGUIDFromResponse (bytes : String)
  | AsUserBegin (shortTimeout : Nat)
  | AsUserEnd
  | EntitleOrgToIsolationSegment (orgGUID : String) (isoSegGUID : String) (timeout : Nat)
  | AssignIsolationSegmentToSpace (spaceGUID : String) (isoSegGUID : String) (timeout : Nat)
  | Login
  | TargetSpace
  | GetIsolationSegmentGUID (name : String) (timeout : Nat)
  | SendRequestWithSpoofedHeader (targetHostname : String) (routerDomain : String)
  | ReadAll
  | BodyClose
  deriving DecidableEq, Repr

/-- The fields and getters of `testConfig` that the file reads. Durations are
natural numbers. -/
structure Config where
  EnableIsolationSegmentTests : Bool
  Cleanup : Bool
  GetUseExistingOrganization : Bool
  GetUseExistingSpace : Bool
  GetAppsDomains : String
  GetIsolationSegmentName : String
  GetIsolationSegmentDomain : String
  GetIsolationSegmentSpace : String
  GetDefaultTimeout : Nat
  GetPushTimeout : Nat

/-- The parts of `testSetup` that the file reads: the organisation and space
of `RegularUserContext()` and `ShortTimeout()`. -/
structure TestSetup where
  Org : String
  Space : String
  ShortTimeout : Nat

/-- A started `cf` command, as far as the tests observe it: the exit code if
the process ends within a given timeout, and the contents of its standard
output. -/
structure Session where
  ExitCodeWithin : Nat → Option Int
  Out : String

/-- An HTTP response as far as the tests observe it: the status code and what
`ioutil.ReadAll(resp.Body)` yields (the data and the error, if any). -/
structure Response where
  StatusCode : Int
  htmlData : String
  err : Option String

/-- Everything outside the file. Each answer may depend on the calls issued
before it (first argument). -/
structure World where
  PrefixedRandomName : List Action → String → String → String
  GetOrgGUIDFromName : List Action → String → Nat → String
  GetSpaceGUIDFromName : List Action → String → Nat → String
  OrgEntitledToIsolationSegment : List Action → String → String → Nat → Bool
  IsolationSegmentAssignedToSpace : List Action → String → Nat → Bool
  GetIsolationSegmentGUID : List Action → String → Nat → String
  GetGUIDFromResponse : List Action → String → String
  Cf : List Action → List String → Session
  SendRequestWithSpoofedHeader : List Action → String → String → Option Response

/-- The variables declared in the `Describe` body (lines 23-31), and
`ctx_appName`, the `appName` that the second `Context` declares (line 115). -/
structure Vars where
  appsDomain : String
  orgGUID : String
  orgName : String
  spaceGUID : String
  spaceName : String
  isoSpaceGUID : String
  isoSpaceName : String
  isoSegGUID : String
  isoSegName : String
  isoSegDomain : String
  appName : String
  ctx_appName : String

/-- The state threaded through a test case. -/
structure St where
  vars : Vars
  trace : List Action

/-- Why a block failed: an explicit `Fail(message)`, or an assertion of
`Expect`/`Eventually`/`Wait` that did not hold. -/
inductive Failure where
  | Fail (message : String)
  | Expectation
  deriving DecidableEq, Repr

/-- How a block ends. `Skip` and failures abort the block. -/
inductive Outcome (α : Type) where
  | passed (a : α) (s : St)
  | skipped (message : String) (s : St)
  | failed (f : Failure) (s : St)

def Outcome.state {α : Type} : Outcome α → St
  | .passed _ s => s
  | .skipped _ s => s
  | .failed _ s => s

def Outcome.isPassed {α : Type} : Outcome α → Bool
  | .passed _ _ => true
  | _ => false

def Outcome.isSkipped {α : Type} : Outcome α → Bool
  | .skipped _ _ => true
  | _ => false

def Outcome.isFailed {α : Type} : Outcome α → Bool
  | .failed _ _ => true
  | _ => false

def TestM (α : Type) : Type := St → Outcome α

def TestM.pure {α : Type} (a : α) : TestM α := fun s => .passed a s

/-- Continue with `f` after a block that passed; a skip or a failure ends the
run of the blocks. -/
def Outcome.andThen {α β : Type} (r : Outcome α) (f : α → TestM β) : Outcome β :=
  match r with
  | .passed a s' => f a s'
  | .skipped m s' => .skipped m s'
  | .failed e s' => .failed e s'

/-- Apply `d` to the state an outcome carries. -/
def Outcome.mapState {α : Type} (d : St → St) : Outcome α → Outcome α
  | .passed a s' => .passed a (d s')
  | .skipped m s' => .skipped m (d s')
  | .failed e s' => .failed e (d s')

def TestM.bind {α β : Type} (x : TestM α) (f : α → TestM β) : TestM β := fun s =>
  (x s).andThen f

instance : Monad TestM where
  pure := TestM.pure
  bind := TestM.bind

def getVars : TestM Vars := fun s => .passed s.vars s

def setVars (f : Vars → Vars) : TestM Unit := fun s => .passed () { s with vars := f s.vars }

/-- Issue a call: the answer is computed from the calls issued before, and the
call is appended to the trace. -/
def call {α : Type} (a : Action) (answer : List Action → α) : TestM α := fun s =>
  .passed (answer s.trace) { s with trace := s.trace ++ [a] }

def Skip {α : Type} (message : String) : TestM α := fun s => .skipped message s

def Fail {α : Type} (message : String) : TestM α := fun s => .failed (.Fail message) s

/-- The assertion `Expect(actual).To(matcher)` with the match already
evaluated. -/
def Expect (ok : Bool) : TestM Unit := fun s =>
  if ok then .passed () s else .failed .Expectation s

/-- Go's `defer`: `d` runs when the rest of the function, `body`, ends, however
it ends. -/
def defer {α : Type} (d : St → St) (body : TestM α) : TestM α := fun s =>
  (body s).mapState d

/-- The matcher `ContainSubstring(substr)` on `actual`. -/
def ContainSubstring (actual substr : String) : Bool :=
  decide (substr.data <:+: actual.data)

/-- The call `cf.Cf(args...)`: starts the command. -/
@[simp]
def cfCf (W : World) (args : List String) : TestM Session :=
  call (.Cf args) (fun h => W.Cf h args)

/-- The assertion `Eventually(session, timeout).Should(Exit(0))`. -/
@[simp]
def EventuallyExit0 (session : Session) (timeout : Nat) : TestM Unit :=
  Expect (session.ExitCodeWithin timeout == some 0)

/-- The call `session.Wait(timeout)`: fails unless the command exits within
the timeout. -/
@[simp]
def Wait (session : Session) (timeout : Nat) : TestM Session :=
  bind (Expect (session.ExitCodeWithin timeout).isSome) (fun _ => pure session)

/-- The assertion `Expect(session).To(Exit(0))` on a session that was waited
for with `timeout`. -/
@[simp]
def ExpectExit0 (session : Session) (timeout : Nat) : TestM Unit :=
  Expect (session.ExitCodeWithin timeout == some 0)

/-! ## Helpers of the package and of the libraries, answered by the world

The helpers of the package (`GetOrgGUIDFromName`, `OrgEntitledToIsolationSegment`,
...) and of the libraries are not part of the file. Each is a call recorded in
the trace; what it returns is a parameter, a field of `World`, with the type the
call sites show. -/

@[simp]
def PrefixedRandomName (W : World) (pfx resource : String) : TestM String :=
  call (.PrefixedRandomName pfx resource) (fun h => W.PrefixedRandomName h pfx resource)

@[simp]
def GetOrgGUIDFromName (W : World) (name : String) (timeout : Nat) : TestM String :=
  call (.GetOrgGUIDFromName name timeout) (fun h => W.GetOrgGUIDFromName h name timeout)

@[simp]
def GetSpaceGUIDFromName (W : World) (name : String) (timeout : Nat) : TestM String :=
  call (.GetSpaceGUIDFromName name timeout) (fun h => W.GetSpaceGUIDFromName h name timeout)

@[simp]
def OrgEntitledToIsolationSegment (W : World) (orgGUID isoSegName : String) (timeout : Nat) :
    TestM Bool :=
  call (.OrgEntitledToIsolationSegment orgGUID isoSegName timeout)
    (fun h => W.OrgEntitledToIsolationSegment h orgGUID isoSegName timeout)

@[simp]
def IsolationSegmentAssignedToSpace (W : World) (spaceGUID : String) (timeout : Nat) :
    TestM Bool :=
  call (.IsolationSegmentAssignedToSpace spaceGUID timeout)
    (fun h => W.IsolationSegmentAssignedToSpace h spaceGUID timeout)

@[simp]
def GetIsolationSegmentGUID (W : World) (name : String) (timeout : Nat) : TestM String :=
  call (.GetIsolationSegmentGUID name timeout) (fun h => W.GetIsolationSegmentGUID h name timeout)

@[simp]
def GetGUIDFromResponse (W : World) (bytes : String) : TestM String :=
  call (.GetGUIDFromResponse bytes) (fun h => W.GetGUIDFromResponse h bytes)

@[simp]
def EntitleOrgToIsolationSegment (orgGUID isoSegGUID : String) (timeout : Nat) : TestM Unit :=
  call (.EntitleOrgToIsolationSegment orgGUID isoSegGUID timeout) (fun _ => ())

@[simp]
def AssignIsolationSegmentToSpace (spaceGUID isoSegGUID : String) (timeout : Nat) : TestM Unit :=
  call (.AssignIsolationSegmentToSpace spaceGUID isoSegGUID timeout) (fun _ => ())

/-- The call `workflowhelpers.AsUser(testSetup.AdminUserContext(), timeout, actions)`:
whatever the library does to become the admin user comes before `actions`, and
whatever it does to stop being that user comes after. -/
@[simp]
def AsUser (timeout : Nat) (actions : TestM Unit) : TestM Unit :=
  bind (call (.AsUserBegin timeout) (fun _ => ())) (fun _ =>
    defer (fun s => { s with trace := s.trace ++ [.AsUserEnd] }) actions)

/-- The call `testSetup.RegularUserContext().Login()`. -/
@[simp]
def Login : TestM Unit := call .Login (fun _ => ())

/-- The call `testSetup.RegularUserContext().TargetSpace()`. -/
@[simp]
def TargetSpace : TestM Unit := call .TargetSpace (fun _ => ())

/-- Modelled from the spec: `SendRequestWithSpoofedHeader` is not in the file.
It issues one GET request to the address of `routerDomain` with the Host header
`targetHostname` and returns the response; when no response is obtained the
calling test fails. -/
@[simp]
def SendRequestWithSpoofedHeader (W : World) (targetHostname routerDomain : String) :
    TestM Response :=
  bind (call (.SendRequestWithSpoofedHeader targetHostname routerDomain)
      (fun h => W.SendRequestWithSpoofedHeader h targetHostname routerDomain))
    (fun r => fun s => match r with
      | some resp => .passed resp s
      | none => .failed .Expectation s)

/-- The call `ioutil.ReadAll(resp.Body)`. -/
@[simp]
def ReadAll (resp : Response) : TestM (String × Option String) :=
  call .ReadAll (fun _ => (resp.htmlData, resp.err))

/-- The deferred call `resp.Body.Close()`. -/
@[simp]
def BodyClose (s : St) : St := { s with trace := s.trace ++ [.BodyClose] }

/-! ## The blocks of the test tree -/

/-- The `BeforeEach` of the `Describe` (lines 33-66). -/
def BeforeEach (testConfig : Config) (testSetup : TestSetup) (W : World) : TestM Unit := do
  if testConfig.EnableIsolationSegmentTests != true then
    Skip "Skipping because EnableIsolationSegmentTests flag is set to false"
  setVars fun v => { v with appsDomain := testConfig.GetAppsDomains }
  setVars fun v => { v with orgName := testSetup.Org }
  let v ← getVars
  let g ← GetOrgGUIDFromName W v.orgName testConfig.GetDefaultTimeout
  setVars fun v => { v with orgGUID := g }
  setVars fun v => { v with spaceName := testSetup.Space }
  let v ← getVars
  let g ← GetSpaceGUIDFromName W v.spaceName testConfig.GetDefaultTimeout
  setVars fun v => { v with spaceGUID := g }
  setVars fun v => { v with isoSpaceName := v.spaceName }
  setVars fun v => { v with isoSpaceGUID := v.spaceGUID }
  let n ← PrefixedRandomName W "SMOKES" "APP"
  setVars fun v => { v with appName := n }
  setVars fun v => { v with isoSegName := testConfig.GetIsolationSegmentName }
  setVars fun v => { v with isoSegDomain := testConfig.GetIsolationSegmentDomain }
  if testConfig.GetUseExistingOrganization && testConfig.GetUseExistingSpace then
    let v ← getVars
    let entitled ← OrgEntitledToIsolationSegment W v.orgGUID v.isoSegName
      testConfig.GetDefaultTimeout
    if !entitled then
      Fail ("Pre-existing org " ++ v.orgName ++ " is not entitled to isolation segment "
        ++ v.isoSegName)
    setVars fun v => { v with isoSpaceName := testConfig.GetIsolationSegmentSpace }
    let v ← getVars
    let g ← GetSpaceGUIDFromName W v.isoSpaceName testConfig.GetDefaultTimeout
    setVars fun v => { v with isoSpaceGUID := g }
    let v ← getVars
    let assigned ← IsolationSegmentAssignedToSpace W v.isoSpaceGUID testConfig.GetDefaultTimeout
    if !assigned then
      Fail ("No isolation segment assigned  to pre-existing space " ++ v.isoSpaceName)
  let v ← getVars
  let session ← cfCf W ["curl", "/v3/organizations?names=" ++ v.orgName]
  let session ← Wait session testConfig.GetDefaultTimeout
  let bytes := session.Out
  let g ← GetGUIDFromResponse W bytes
  setVars fun v => { v with orgGUID := g }

/-- The `AfterEach` of the `Describe` (lines 68-72). -/
def AfterEach (testConfig : Config) (W : World) : TestM Unit := do
  if testConfig.Cleanup then
    let v ← getVars
    let session ← cfCf W ["delete", v.appName, "-f", "-r"]
    let session ← Wait session testConfig.GetDefaultTimeout
    ExpectExit0 session testConfig.GetDefaultTimeout

/-- The `BeforeEach` of the first `Context`, "When an app is pushed to a space
assigned the shared isolation segment" (lines 75-93). -/
def Shared_BeforeEach (testConfig : Config) (testSetup : TestSetup) (W : World) :
    TestM Unit := do
  if !testConfig.GetUseExistingOrganization && !testConfig.GetUseExistingSpace then
    let v ← getVars
    AsUser testSetup.ShortTimeout (do
      EntitleOrgToIsolationSegment v.orgGUID sharedIsolationSegmentGUID
        testConfig.GetDefaultTimeout
      AssignIsolationSegmentToSpace v.spaceGUID sharedIsolationSegmentGUID
        testConfig.GetDefaultTimeout)
    Login
    TargetSpace
  let v ← getVars
  let session ← cfCf W ["push", v.appName, "-p", binaryAppBitsPath, "-b", "binary_buildpack",
    "-d", v.appsDomain, "-c", "./app"]
  EventuallyExit0 session testConfig.GetPushTimeout

/-- The test "is reachable from the shared router" (lines 95-103). -/
def Shared_It_reachable (W : World) : TestM Unit := do
  let v ← getVars
  let resp ← SendRequestWithSpoofedHeader W (v.appName ++ "." ++ v.appsDomain) v.appsDomain
  defer BodyClose (do
    Expect (resp.StatusCode == 200)
    let (htmlData, err) ← ReadAll resp
    Expect err.isNone
    Expect (ContainSubstring htmlData binaryHi))

/-- The test "is not reachable from the isolation segment router" (lines 105-111). -/
def Shared_It_not_reachable (W : World) : TestM Unit := do
  let v ← getVars
  let resp ← SendRequestWithSpoofedHeader W (v.appName ++ "." ++ v.appsDomain) v.isoSegDomain
  defer BodyClose (do
    Expect (resp.StatusCode == 404))

/-- The `BeforeEach` of the second `Context`, "When an app is pushed to a space
that has been assigned an Isolation Segment" (lines 117-135). Inside this
`Context`, `appName` is the variable declared on line 115. -/
def Iso_BeforeEach (testConfig : Config) (W : World) : TestM Unit := do
  let v ← getVars
  let g ← GetIsolationSegmentGUID W v.isoSegName testConfig.GetDefaultTimeout
  setVars fun v => { v with isoSegGUID := g }
  if !testConfig.GetUseExistingOrganization then
    let v ← getVars
    EntitleOrgToIsolationSegment v.orgGUID v.isoSegGUID testConfig.GetDefaultTimeout
  if !testConfig.GetUseExistingSpace then
    let v ← getVars
    AssignIsolationSegmentToSpace v.isoSpaceGUID v.isoSegGUID testConfig.GetDefaultTimeout
  let n ← PrefixedRandomName W "SMOKES" "APP"
  setVars fun v => { v with ctx_appName := n }
  let v ← getVars
  let session ← cfCf W ["target", "-s", v.isoSpaceName]
  EventuallyExit0 session testConfig.GetDefaultTimeout
  let v ← getVars
  let session ← cfCf W ["push", v.ctx_appName, "-p", binaryAppBitsPath, "-b", "binary_buildpack",
    "-d", v.isoSegDomain, "-c", "./app"]
  EventuallyExit0 session testConfig.GetPushTimeout

/-- The test "the app is reachable from the isolated router" (lines 137-145). -/
def Iso_It_reachable (W : World) : TestM Unit := do
  let v ← getVars
  let resp ← SendRequestWithSpoofedHeader W (v.ctx_appName ++ "." ++ v.isoSegDomain)
    v.isoSegDomain
  defer BodyClose (do
    Expect (resp.StatusCode == 200)
    let (htmlData, err) ← ReadAll resp
    Expect err.isNone
    Expect (ContainSubstring htmlData binaryHi))

/-- The test "the app is not reachable from the shared router" (lines 147-153). -/
def Iso_It_not_reachable (W : World) : TestM Unit := do
  let v ← getVars
  let resp ← SendRequestWithSpoofedHeader W (v.ctx_appName ++ "." ++ v.isoSegDomain)
    v.appsDomain
  defer BodyClose (do
    Expect (resp.StatusCode == 404))

/-! ## Running one test case -/

/-- The four test cases of the file. -/
inductive TestCase where
  | shared_reachable
  | shared_not_reachable
  | iso_reachable
  | iso_not_reachable
  deriving DecidableEq, Repr

/-- The `BeforeEach` of the `Context` a test case belongs to. -/
def TestCase.contextBeforeEach (testConfig : Config) (testSetup : TestSetup) (W : World) :
    TestCase → TestM Unit
  | .shared_reachable => Shared_BeforeEach testConfig testSetup W
  | .shared_not_reachable => Shared_BeforeEach testConfig testSetup W
  | .iso_reachable => Iso_BeforeEach testConfig W
  | .iso_not_reachable => Iso_BeforeEach testConfig W

/-- The `It` block of a test case. -/
def TestCase.it (W : World) : TestCase → TestM Unit
  | .shared_reachable => Shared_It_reachable W
  | .shared_not_reachable => Shared_It_not_reachable W
  | .iso_reachable => Iso_It_reachable W
  | .iso_not_reachable => Iso_It_not_reachable W

/-- The setup of a test case: the `BeforeEach` of the `Describe`, then, when it
passed, the `BeforeEach` of the `Context`. -/
def TestCase.setup (testConfig : Config) (testSetup : TestSetup) (W : World) (tc : TestCase) :
    TestM Unit := do
  BeforeEach testConfig testSetup W
  tc.contextBeforeEach testConfig testSetup W

/-- The blocks of a test case that come before the `AfterEach`: the setup,
then, when it passed, the `It` block. -/
def TestCase.blocks (testConfig : Config) (testSetup : TestSetup) (W : World) (tc : TestCase) :
    TestM Unit := do
  tc.setup testConfig testSetup W
  tc.it W

/-- Ginkgo's run of one test case of this tree: the `BeforeEach` blocks from
the outside in, then the `It` block, each only when everything before it
passed; then the `AfterEach` of the `Describe`, always. The verdict is that of
the first block that did not pass; the `AfterEach` decides it only when all the
blocks before it passed. -/
def runSample (testConfig : Config) (testSetup : TestSetup) (W : World) (tc : TestCase) :
    TestM Unit := fun s =>
  let r := tc.blocks testConfig testSetup W s
  let a := AfterEach testConfig W r.state
  match r with
  | .passed _ _ => a
  | .skipped m _ => .skipped m a.state
  | .failed e _ => .failed e a.state

/-! ## The calls and answers of the top-level `BeforeEach`, by line -/

/-- The calls of lines 40-50, before the precondition checks. -/
def lookupCalls (testConfig : Config) (testSetup : TestSetup) : List Action :=
  [.GetOrgGUIDFromName testSetup.Org testConfig.GetDefaultTimeout,
   .GetSpaceGUIDFromName testSetup.Space testConfig.GetDefaultTimeout,
   .PrefixedRandomName "SMOKES" "APP"]

/-- The org GUID that line 42 obtains when `BeforeEach` starts in `s`. -/
def line42_orgGUID (testConfig : Config) (testSetup : TestSetup) (W : World) (s : St) : String :=
  W.GetOrgGUIDFromName s.trace testSetup.Org testConfig.GetDefaultTimeout

/-- The space GUID that line 44 obtains. -/
def line44_spaceGUID (testConfig : Config) (testSetup : TestSetup) (W : World) (s : St) :
    String :=
  W.GetSpaceGUIDFromName
    (s.trace ++ [.GetOrgGUIDFromName testSetup.Org testConfig.GetDefaultTimeout])
    testSetup.Space testConfig.GetDefaultTimeout

/-- The app name that line 47 generates. -/
def line47_appName (testConfig : Config) (testSetup : TestSetup) (W : World) (s : St) : String :=
  W.PrefixedRandomName
    (s.trace ++ [.GetOrgGUIDFromName testSetup.Org testConfig.GetDefaultTimeout,
      .GetSpaceGUIDFromName testSetup.Space testConfig.GetDefaultTimeout])
    "SMOKES" "APP"

/-- The entitlement check of line 53, as a call. -/
def entitlementCheck (testConfig : Config) (testSetup : TestSetup) (W : World) (s : St) :
    Action :=
  .OrgEntitledToIsolationSegment (line42_orgGUID testConfig testSetup W s)
    testConfig.GetIsolationSegmentName testConfig.GetDefaultTimeout

/-- What the world answers to the entitlement check of line 53. -/
def orgEntitled (testConfig : Config) (testSetup : TestSetup) (W : World) (s : St) : Bool :=
  W.OrgEntitledToIsolationSegment (s.trace ++ lookupCalls testConfig testSetup)
    (line42_orgGUID testConfig testSetup W s)
    testConfig.GetIsolationSegmentName testConfig.GetDefaultTimeout

/-- The lookup of line 57, as a call. -/
def isoSpaceLookup (testConfig : Config) : Action :=
  .GetSpaceGUIDFromName testConfig.GetIsolationSegmentSpace testConfig.GetDefaultTimeout

/-- The GUID of the configured isolation-segment space that line 57 obtains. -/
def line57_isoSpaceGUID (testConfig : Config) (testSetup : TestSetup) (W : World) (s : St) :
    String :=
  W.GetSpaceGUIDFromName
    (s.trace ++ lookupCalls testConfig testSetup ++ [entitlementCheck testConfig testSetup W s])
    testConfig.GetIsolationSegmentSpace testConfig.GetDefaultTimeout

/-- The assignment check of line 58, as a call. -/
def assignmentCheck (testConfig : Config) (testSetup : TestSetup) (W : World) (s : St) :
    Action :=
  .IsolationSegmentAssignedToSpace (line57_isoSpaceGUID testConfig testSetup W s)
    testConfig.GetDefaultTimeout

/-- What the world answers to the assignment check of line 58. -/
def spaceAssigned (testConfig : Config) (testSetup : TestSetup) (W : World) (s : St) : Bool :=
  W.IsolationSegmentAssignedToSpace
    (s.trace ++ lookupCalls testConfig testSetup ++
      [entitlementCheck testConfig testSetup W s, isoSpaceLookup testConfig])
    (line57_isoSpaceGUID testConfig testSetup W s) testConfig.GetDefaultTimeout

/-- The calls of lines 53-58, issued when both precondition checks hold. -/
def precheckCalls (testConfig : Config) (testSetup : TestSetup) (W : World) (s : St) :
    List Action :=
  if testConfig.GetUseExistingOrganization && testConfig.GetUseExistingSpace then
    [entitlementCheck testConfig testSetup W s, isoSpaceLookup testConfig,
      assignmentCheck testConfig testSetup W s]
  else []

/-- The organization lookup of line 63, as a call. -/
def orgCurl (testSetup : TestSetup) : Action :=
  .Cf ["curl", "/v3/organizations?names=" ++ testSetup.Org]

/-- The session of the organization lookup of line 63, when it is reached. -/
def line63_session (testConfig : Config) (testSetup : TestSetup) (W : World) (s : St) :
    Session :=
  W.Cf (s.trace ++ (lookupCalls testConfig testSetup ++ precheckCalls testConfig testSetup W s))
    ["curl", "/v3/organizations?names=" ++ testSetup.Org]

/-- The org GUID that line 65 obtains. -/
def line65_orgGUID (testConfig : Config) (testSetup : TestSetup) (W : World) (s : St) : String :=
  W.GetGUIDFromResponse
    (s.trace ++ (lookupCalls testConfig testSetup ++ precheckCalls testConfig testSetup W s
      ++ [orgCurl testSetup]))
    (line63_session testConfig testSetup W s).Out

/-! ## The calls and answers of the two `Context` setups -/

/-- The calls of lines 76-84: the provisioning of the shared scenario. -/
def sharedProvisionCalls (testConfig : Config) (testSetup : TestSetup) (v : Vars) :
    List Action :=
  if !testConfig.GetUseExistingOrganization && !testConfig.GetUseExistingSpace then
    [.AsUserBegin testSetup.ShortTimeout,
     .EntitleOrgToIsolationSegment v.orgGUID sharedIsolationSegmentGUID
        testConfig.GetDefaultTimeout,
     .AssignIsolationSegmentToSpace v.spaceGUID sharedIsolationSegmentGUID
        testConfig.GetDefaultTimeout,
     .AsUserEnd, .Login, .TargetSpace]
  else []

/-- The isolation segment GUID that line 118 obtains when the `BeforeEach` of
the second `Context` starts in `s`. -/
def line118_isoSegGUID (testConfig : Config) (W : World) (s : St) : String :=
  W.GetIsolationSegmentGUID s.trace s.vars.isoSegName testConfig.GetDefaultTimeout

/-- The calls of lines 118-125: the provisioning of the isolation-segment
scenario. -/
def isoProvisionCalls (testConfig : Config) (W : World) (s : St) : List Action :=
  [.GetIsolationSegmentGUID s.vars.isoSegName testConfig.GetDefaultTimeout]
    ++ (if !testConfig.GetUseExistingOrganization then
          [.EntitleOrgToIsolationSegment s.vars.orgGUID (line118_isoSegGUID testConfig W s)
            testConfig.GetDefaultTimeout]
        else [])
    ++ (if !testConfig.GetUseExistingSpace then
          [.AssignIsolationSegmentToSpace s.vars.isoSpaceGUID (line118_isoSegGUID testConfig W s)
            testConfig.GetDefaultTimeout]
        else [])

/-- The app name that line 126 generates. -/
def line126_appName (testConfig : Config) (W : World) (s : St) : String :=
  W.PrefixedRandomName (s.trace ++ isoProvisionCalls testConfig W s) "SMOKES" "APP"

/-- The domain a test case pushes its app to, as the specification states it:
the apps domain in the shared scenario, the isolation segment domain in the
isolation-segment scenario. -/
def TestCase.pushDomain (testConfig : Config) : TestCase → String
  | .shared_reachable => testConfig.GetAppsDomains
  | .shared_not_reachable => testConfig.GetAppsDomains
  | .iso_reachable => testConfig.GetIsolationSegmentDomain
  | .iso_not_reachable => testConfig.GetIsolationSegmentDomain

/-- The router domain a test case probes through, as the specification states
it: the shared app through the apps domain and through the isolation segment
domain, the isolated app through the isolation segment domain and through the
apps domain. -/
def TestCase.routerDomain (testConfig : Config) : TestCase → String
  | .shared_reachable => testConfig.GetAppsDomains
  | .shared_not_reachable => testConfig.GetIsolationSegmentDomain
  | .iso_reachable => testConfig.GetIsolationSegmentDomain
  | .iso_not_reachable => testConfig.GetAppsDomains

/-- The argument list of a push of `appName` to `domain`. -/
def pushArgs (appName domain : String) : List String :=
  ["push", appName, "-p", "../../assets/binary", "-b", "binary_buildpack", "-d", domain,
    "-c", "./app"]

/-! ## Concrete inputs -/

def demoConfig : Config where
  EnableIsolationSegmentTests := true
  Cleanup := true
  GetUseExistingOrganization := false
  GetUseExistingSpace := false
  GetAppsDomains := "apps.example.com"
  GetIsolationSegmentName := "iso-seg"
  GetIsolationSegmentDomain := "iso.example.com"
  GetIsolationSegmentSpace := "iso-space"
  GetDefaultTimeout := 30
  GetPushTimeout := 120

/-- The configuration `demoConfig` with a pre-existing organisation and space. -/
def existingConfig : Config :=
  { demoConfig with GetUseExistingOrganization := true, GetUseExistingSpace := true }

/-- The configuration `demoConfig` with the isolation segment tests disabled. -/
def disabledConfig : Config :=
  { demoConfig with EnableIsolationSegmentTests := false }

/-- The configuration `existingConfig` with the isolation segment tests
disabled. -/
def disabledExistingConfig : Config :=
  { existingConfig with EnableIsolationSegmentTests := false }

def demoSetup : TestSetup := { Org := "smoke-org", Space := "smoke-space", ShortTimeout := 5 }

def okSession : Session := { ExitCodeWithin := fun _ => some 0, Out := "org-guid" }

def exit1Session : Session := { ExitCodeWithin := fun _ => some 1, Out := "" }

def helloResponse : Response :=
  { StatusCode := 200, htmlData := "Hello from a binary", err := none }

def notFoundResponse : Response :=
  { StatusCode := 404, htmlData := "404 Not Found", err := none }

/-- A platform on which every command exits 0 at once, every check holds, a
request is answered with the binary's greeting when the host name lies in the
router's domain and with 404 otherwise, and the first generated name differs
from the later ones. -/
def demoWorld : World where
  PrefixedRandomName h p r :=
    p ++ "-" ++ r ++ (if h.length ≤ 2 then "-xxxx" else "-yyyy")
  GetOrgGUIDFromName _ n _ := "guid-of-" ++ n
  GetSpaceGUIDFromName _ n _ := "guid-of-" ++ n
  OrgEntitledToIsolationSegment _ _ _ _ := true
  IsolationSegmentAssignedToSpace _ _ _ := true
  GetIsolationSegmentGUID _ n _ := "guid-of-" ++ n
  GetGUIDFromResponse _ b := b
  Cf _ _ := okSession
  SendRequestWithSpoofedHeader _ host domain :=
    some (if domain.data.isSuffixOf host.data then helloResponse else notFoundResponse)

/-- The platform `demoWorld`, except that the org is not entitled to any
isolation segment. -/
def notEntitledWorld : World :=
  { demoWorld with OrgEntitledToIsolationSegment := fun _ _ _ _ => false }

/-- The platform `demoWorld`, except that no space has an isolation segment
assigned. -/
def notAssignedWorld : World :=
  { demoWorld with IsolationSegmentAssignedToSpace := fun _ _ _ => false }

/-- The platform `demoWorld`, except that `cf delete` exits 1. -/
def deleteFailsWorld : World :=
  { demoWorld with Cf := fun _ args => if args.head? = some "delete" then exit1Session
                                       else okSession }

def emptyVars : Vars := ⟨"", "", "", "", "", "", "", "", "", "", "", ""⟩

/-- The state before the first test case: no variable set, nothing issued. -/
def initialState : St := ⟨emptyVars, []⟩

/-- The state in which the test "is not reachable from the isolation segment
router" starts on `demoWorld`. -/
def demoSharedState : St :=
  (TestCase.setup demoConfig demoSetup demoWorld .shared_not_reachable initialState).state

/-- The state in which the test "the app is reachable from the isolated router"
starts on `demoWorld`. -/
def demoIsoState : St :=
  (TestCase.setup demoConfig demoSetup demoWorld .iso_reachable initialState).state

/-- The state in which the test "is reachable from the shared router" starts
on `deleteFailsWorld`. -/
def deleteFailsSharedState : St :=
  (TestCase.setup demoConfig demoSetup deleteFailsWorld .shared_reachable initialState).state

/-- The Target Hostname that the `It` block of a test case passes to the probe
(lines 96, 107, 138, 149). -/
def TestCase.targetHostname (v : Vars) : TestCase → String
  | .shared_reachable => v.appName ++ "." ++ v.appsDomain
  | .shared_not_reachable => v.appName ++ "." ++ v.appsDomain
  | .iso_reachable => v.ctx_appName ++ "." ++ v.isoSegDomain
  | .iso_not_reachable => v.ctx_appName ++ "." ++ v.isoSegDomain

/-- The Router Domain that the `It` block of a test case passes to the probe
(lines 96, 107, 138, 149). -/
def TestCase.probedDomain (v : Vars) : TestCase → String
  | .shared_reachable => v.appsDomain
  | .shared_not_reachable => v.isoSegDomain
  | .iso_reachable => v.isoSegDomain
  | .iso_not_reachable => v.appsDomain

/-- What the specification asks of the response of a test case: status 200, a
body read without error and containing "Hello from a binary" for a "reachable"
test case; status 404, whatever the body, for a "not reachable" one. -/
def TestCase.accepts : TestCase → Response → Bool
  | .shared_reachable, r =>
    r.StatusCode == 200 && r.err.isNone && ContainSubstring r.htmlData "Hello from a binary"
  | .iso_reachable, r =>
    r.StatusCode == 200 && r.err.isNone && ContainSubstring r.htmlData "Hello from a binary"
  | .shared_not_reachable, r => r.StatusCode == 404
  | .iso_not_reachable, r => r.StatusCode == 404

/-- Whether a call is a `cf push`. -/
def Action.isPush : Action → Bool
  | .Cf ("push" :: _) => true
  | _ => false

/-- Whether a call is a `cf delete`. -/
def Action.isDelete : Action → Bool
  | .Cf ("delete" :: _) => true
  | _ => false

/-- The orchestration steps that the spec orders. -/
inductive Step where
  | entitle
  | assign
  | target
  | push
  deriving DecidableEq, Repr

/-- The orchestration step a call makes, if any: entitling the org, assigning
the isolation segment to the space, targeting the space (by
`RegularUserContext().TargetSpace()` or by `cf target`), pushing the app. -/
def Action.step : Action → Option Step
  | .EntitleOrgToIsolationSegment _ _ _ => some .entitle
  | .AssignIsolationSegmentToSpace _ _ _ => some .assign
  | .TargetSpace => some .target
  | .Cf ("target" :: _) => some .target
  | .Cf ("push" :: _) => some .push
  | _ => none

/-- The orchestration steps among a list of calls, in order. -/
def orchestration (l : List Action) : List Step := l.filterMap Action.step

/-- The state in which the `BeforeEach` of a `Context` starts on `demoWorld`. -/
def demoContextState : St :=
  (BeforeEach demoConfig demoSetup demoWorld initialState).state

/-- The calls a block issued when started in state `s`. -/
def issued {α : Type} (s : St) (r : Outcome α) : List Action :=
  r.state.trace.drop s.trace.length

/-! ## Evaluation lemmas -/

@[simp]
theorem andThen_passed {α β : Type} (a : α) (s : St) (f : α → TestM β) :
    (Outcome.passed a s).andThen f = f a s := rfl

@[simp]
theorem andThen_skipped {α β : Type} (m : String) (s : St) (f : α → TestM β) :
    (Outcome.skipped m s : Outcome α).andThen f = .skipped m s := rfl

@[simp]
theorem andThen_failed {α β : Type} (e : Failure) (s : St) (f : α → TestM β) :
    (Outcome.failed e s : Outcome α).andThen f = .failed e s := rfl

@[simp]
theorem andThen_ite {α β : Type} (c : Prop) [Decidable c] (a b : Outcome α) (f : α → TestM β) :
    (if c then a else b).andThen f = if c then a.andThen f else b.andThen f := by
  split <;> rfl

@[simp]
theorem mapState_passed {α : Type} (d : St → St) (a : α) (s : St) :
    (Outcome.passed a s).mapState d = .passed a (d s) := rfl

@[simp]
theorem mapState_skipped {α : Type} (d : St → St) (m : String) (s : St) :
    (Outcome.skipped m s : Outcome α).mapState d = .skipped m (d s) := rfl

@[simp]
theorem mapState_failed {α : Type} (d : St → St) (e : Failure) (s : St) :
    (Outcome.failed e s : Outcome α).mapState d = .failed e (d s) := rfl

@[simp]
theorem mapState_ite {α : Type} (c : Prop) [Decidable c] (a b : Outcome α) (d : St → St) :
    (if c then a else b).mapState d = if c then a.mapState d else b.mapState d := by
  split <;> rfl

@[simp]
theorem state_passed {α : Type} (a : α) (s : St) : (Outcome.passed a s).state = s := rfl

@[simp]
theorem state_skipped {α : Type} (m : String) (s : St) :
    (Outcome.skipped m s : Outcome α).state = s := rfl

@[simp]
theorem state_failed {α : Type} (e : Failure) (s : St) :
    (Outcome.failed e s : Outcome α).state = s := rfl

@[simp]
theorem isPassed_passed {α : Type} (a : α) (s : St) : (Outcome.passed a s).isPassed = true := rfl

@[simp]
theorem isPassed_skipped {α : Type} (m : String) (s : St) :
    (Outcome.skipped m s : Outcome α).isPassed = false := rfl

@[simp]
theorem isPassed_failed {α : Type} (e : Failure) (s : St) :
    (Outcome.failed e s : Outcome α).isPassed = false := rfl

@[simp]
theorem isSkipped_passed {α : Type} (a : α) (s : St) :
    (Outcome.passed a s).isSkipped = false := rfl

@[simp]
theorem isSkipped_skipped {α : Type} (m : String) (s : St) :
    (Outcome.skipped m s : Outcome α).isSkipped = true := rfl

@[simp]
theorem isSkipped_failed {α : Type} (e : Failure) (s : St) :
    (Outcome.failed e s : Outcome α).isSkipped = false := rfl

@[simp]
theorem isFailed_passed {α : Type} (a : α) (s : St) : (Outcome.passed a s).isFailed = false := rfl

@[simp]
theorem isFailed_skipped {α : Type} (m : String) (s : St) :
    (Outcome.skipped m s : Outcome α).isFailed = false := rfl

@[simp]
theorem isFailed_failed {α : Type} (e : Failure) (s : St) :
    (Outcome.failed e s : Outcome α).isFailed = true := rfl

@[simp]
theorem bind_apply {α β : Type} (x : TestM α) (f : α → TestM β) (s : St) :
    (x >>= f) s = (x s).andThen f := rfl

@[simp]
theorem TestM_bind_apply {α β : Type} (x : TestM α) (f : α → TestM β) (s : St) :
    (TestM.bind x f) s = (x s).andThen f := rfl

@[simp]
theorem pure_apply {α : Type} (a : α) (s : St) : (pure a : TestM α) s = .passed a s := rfl

@[simp]
theorem TestM_pure_apply {α : Type} (a : α) (s : St) : (TestM.pure a) s = .passed a s := rfl

@[simp]
theorem TestM_ite_apply {α : Type} (c : Prop) [Decidable c] (x y : TestM α) (s : St) :
    (if c then x else y) s = if c then x s else y s := by
  split <;> rfl

@[simp]
theorem getVars_apply (s : St) : getVars s = .passed s.vars s := rfl

@[simp]
theorem setVars_apply (f : Vars → Vars) (s : St) :
    setVars f s = .passed () { s with vars := f s.vars } := rfl

@[simp]
theorem call_apply {α : Type} (a : Action) (answer : List Action → α) (s : St) :
    call a answer s = .passed (answer s.trace) { s with trace := s.trace ++ [a] } := rfl

@[simp]
theorem Skip_apply {α : Type} (m : String) (s : St) : (Skip m : TestM α) s = .skipped m s := rfl

@[simp]
theorem Fail_apply {α : Type} (m : String) (s : St) :
    (Fail m : TestM α) s = .failed (.Fail m) s := rfl

@[simp]
theorem Expect_apply (ok : Bool) (s : St) :
    Expect ok s = if ok then .passed () s else .failed .Expectation s := rfl

@[simp]
theorem defer_apply {α : Type} (d : St → St) (body : TestM α) (s : St) :
    defer d body s = (body s).mapState d := rfl

theorem issued_append {α : Type} (s : St) (r : Outcome α) (l : List Action)
    (h : r.state.trace = s.trace ++ l) : issued s r = l := by
  simp [issued, h]

/-! ## The feature flag (C1) -/

/-- C1: when `EnableIsolationSegmentTests` is not true, the top-level
`BeforeEach` ends as skipped without issuing any call and without changing the
state, and every one of the four test cases ends as skipped, not failed; the
only call a test case issues is the `cf delete` of the `AfterEach`, when
`Cleanup` is set, so no lookup, check, curl, push or probe is performed. -/
theorem C1_disabled_is_skipped_before_any_step (testConfig : Config) (testSetup : TestSetup)
    (W : World) (tc : TestCase) (s : St)
    (h : testConfig.EnableIsolationSegmentTests ≠ true) :
    BeforeEach testConfig testSetup W s =
        .skipped "Skipping because EnableIsolationSegmentTests flag is set to false" s
      ∧ (runSample testConfig testSetup W tc s).isSkipped = true
      ∧ (runSample testConfig testSetup W tc s).isFailed = false
      ∧ issued s (runSample testConfig testSetup W tc s) =
          (if testConfig.Cleanup then [Action.Cf ["delete", s.vars.appName, "-f", "-r"]] else []) := by
  have hB : BeforeEach testConfig testSetup W s =
      .skipped "Skipping because EnableIsolationSegmentTests flag is set to false" s := by
    simp [BeforeEach, h]
  refine ⟨hB, ?_, ?_, ?_⟩
  · simp [runSample, TestCase.blocks, TestCase.setup, hB]
  · simp [runSample, TestCase.blocks, TestCase.setup, hB]
  · apply issued_append
    cases hC : testConfig.Cleanup <;>
      simp [runSample, TestCase.blocks, TestCase.setup, hB, AfterEach, hC,
        apply_ite Outcome.state]

/-- C1, at a concrete input: with the tests disabled and `Cleanup` set, the test
case "is reachable from the shared router" is skipped and issues nothing but
the `cf delete`. -/
theorem C1_witness :
    disabledConfig.EnableIsolationSegmentTests ≠ true
      ∧ (runSample disabledConfig demoSetup demoWorld .shared_reachable initialState).isSkipped
          = true
      ∧ issued initialState
          (runSample disabledConfig demoSetup demoWorld .shared_reachable initialState)
          = [Action.Cf ["delete", "", "-f", "-r"]] :=
  ⟨by decide,
   (C1_disabled_is_skipped_before_any_step disabledConfig demoSetup demoWorld
      .shared_reachable initialState (by decide)).2.1,
   (C1_disabled_is_skipped_before_any_step disabledConfig demoSetup demoWorld
      .shared_reachable initialState (by decide)).2.2.2⟩

/-! ## The precondition checks on a pre-existing org and space (C2) -/

theorem ContainSubstring_middle (a b c d : String) :
    ContainSubstring (a ++ b ++ c ++ d) b = true := by
  simp only [ContainSubstring, String.data_append, decide_eq_true_eq]
  exact ⟨a.data, c.data ++ d.data, by simp⟩

theorem ContainSubstring_end (a b : String) : ContainSubstring (a ++ b) b = true := by
  simp only [ContainSubstring, String.data_append, decide_eq_true_eq]
  exact (List.suffix_append _ _).isInfix

/-- The top-level `BeforeEach` with the tests enabled and a pre-existing org and
space, in terms of the two answers of the world. -/
theorem BeforeEach_existing (testConfig : Config) (testSetup : TestSetup) (W : World) (s : St)
    (hE : testConfig.EnableIsolationSegmentTests = true)
    (hO : testConfig.GetUseExistingOrganization = true)
    (hS : testConfig.GetUseExistingSpace = true) :
    (orgEntitled testConfig testSetup W s = false →
      ∃ s', BeforeEach testConfig testSetup W s =
          .failed (.Fail ("Pre-existing org " ++ testSetup.Org ++
            " is not entitled to isolation segment " ++ testConfig.GetIsolationSegmentName)) s'
        ∧ s'.trace = s.trace ++ (lookupCalls testConfig testSetup ++
            [entitlementCheck testConfig testSetup W s]))
    ∧ (orgEntitled testConfig testSetup W s = true →
        spaceAssigned testConfig testSetup W s = false →
      ∃ s', BeforeEach testConfig testSetup W s =
          .failed (.Fail ("No isolation segment assigned  to pre-existing space " ++
            testConfig.GetIsolationSegmentSpace)) s'
        ∧ s'.trace = s.trace ++ (lookupCalls testConfig testSetup ++
            [entitlementCheck testConfig testSetup W s, isoSpaceLookup testConfig,
              assignmentCheck testConfig testSetup W s]))
    ∧ (orgEntitled testConfig testSetup W s = true →
        spaceAssigned testConfig testSetup W s = true →
      ∃ rest, (BeforeEach testConfig testSetup W s).state.trace =
          s.trace ++ (lookupCalls testConfig testSetup ++
            [entitlementCheck testConfig testSetup W s, isoSpaceLookup testConfig,
              assignmentCheck testConfig testSetup W s,
              .Cf ["curl", "/v3/organizations?names=" ++ testSetup.Org]] ++ rest)) := by
  refine ⟨?_, ?_, ?_⟩
  · intro h1
    simp only [orgEntitled, lookupCalls, line42_orgGUID] at h1
    simp [BeforeEach, hE, hO, hS, h1, lookupCalls, entitlementCheck, line42_orgGUID]
  · intro h1 h2
    simp only [orgEntitled, spaceAssigned, lookupCalls, line42_orgGUID, line57_isoSpaceGUID,
      entitlementCheck, isoSpaceLookup, List.append_assoc, List.cons_append,
      List.nil_append] at h1 h2
    simp [BeforeEach, hE, hO, hS, h1, h2, lookupCalls, entitlementCheck, line42_orgGUID,
      line57_isoSpaceGUID, assignmentCheck, isoSpaceLookup]
  · intro h1 h2
    simp only [orgEntitled, spaceAssigned, lookupCalls, line42_orgGUID, line57_isoSpaceGUID,
      entitlementCheck, isoSpaceLookup, List.append_assoc, List.cons_append,
      List.nil_append] at h1 h2
    simp only [BeforeEach, hE, hO, hS, lookupCalls, entitlementCheck, line42_orgGUID,
      line57_isoSpaceGUID, assignmentCheck, isoSpaceLookup]
    simp [h1, h2]
    split
    · exact ⟨_, rfl⟩
    · exact ⟨[], by simp⟩

/-- C2: with the tests enabled and both `UseExistingOrganization` and
`UseExistingSpace` set: when the org is not entitled to the configured isolation
segment, `BeforeEach` fails with a message that contains the org name and the
isolation segment name, the entitlement check is the last call it issues and no
assignment check is issued; when the org is entitled and the configured
isolation-segment space has no isolation segment assigned, `BeforeEach` fails
with a message that contains that space's name, right after the assignment
check; and the organization lookup (the `cf curl`) is issued if and only if both
checks hold. -/
theorem C2_existing_org_space_preconditions (testConfig : Config) (testSetup : TestSetup)
    (W : World) (s : St)
    (hE : testConfig.EnableIsolationSegmentTests = true)
    (hO : testConfig.GetUseExistingOrganization = true)
    (hS : testConfig.GetUseExistingSpace = true) :
    (orgEntitled testConfig testSetup W s = false →
      ∃ msg s', BeforeEach testConfig testSetup W s = .failed (.Fail msg) s'
        ∧ ContainSubstring msg testSetup.Org = true
        ∧ ContainSubstring msg testConfig.GetIsolationSegmentName = true
        ∧ issued s (BeforeEach testConfig testSetup W s) =
            lookupCalls testConfig testSetup ++ [entitlementCheck testConfig testSetup W s]
        ∧ ∀ g t, Action.IsolationSegmentAssignedToSpace g t ∉
            issued s (BeforeEach testConfig testSetup W s))
    ∧ (orgEntitled testConfig testSetup W s = true →
        spaceAssigned testConfig testSetup W s = false →
      ∃ msg s', BeforeEach testConfig testSetup W s = .failed (.Fail msg) s'
        ∧ ContainSubstring msg testConfig.GetIsolationSegmentSpace = true
        ∧ issued s (BeforeEach testConfig testSetup W s) =
            lookupCalls testConfig testSetup ++
              [entitlementCheck testConfig testSetup W s, isoSpaceLookup testConfig,
                assignmentCheck testConfig testSetup W s])
    ∧ ((∃ args, Action.Cf ("curl" :: args) ∈ issued s (BeforeEach testConfig testSetup W s))
        ↔ (orgEntitled testConfig testSetup W s = true
            ∧ spaceAssigned testConfig testSetup W s = true)) := by
  obtain ⟨h1, h2, h3⟩ := BeforeEach_existing testConfig testSetup W s hE hO hS
  refine ⟨?_, ?_, ?_⟩
  · intro hne
    obtain ⟨s', hB, ht⟩ := h1 hne
    have hi : issued s (BeforeEach testConfig testSetup W s) =
        lookupCalls testConfig testSetup ++ [entitlementCheck testConfig testSetup W s] :=
      issued_append s _ _ (by simp [hB, ht])
    refine ⟨_, s', hB, ?_, ?_, hi, ?_⟩
    · exact ContainSubstring_middle _ _ _ _
    · exact ContainSubstring_end _ _
    · intro g t
      simp [hi, lookupCalls, entitlementCheck]
  · intro he hna
    obtain ⟨s', hB, ht⟩ := h2 he hna
    exact ⟨_, s', hB, ContainSubstring_end _ _, issued_append s _ _ (by simp [hB, ht])⟩
  · constructor
    · rintro ⟨args, hmem⟩
      cases he : orgEntitled testConfig testSetup W s
      · obtain ⟨s', hB, ht⟩ := h1 he
        have hi : issued s (BeforeEach testConfig testSetup W s) =
            lookupCalls testConfig testSetup ++ [entitlementCheck testConfig testSetup W s] :=
          issued_append s _ _ (by simp [hB, ht])
        simp [hi, lookupCalls, entitlementCheck] at hmem
      · cases ha : spaceAssigned testConfig testSetup W s
        · obtain ⟨s', hB, ht⟩ := h2 he ha
          have hi : issued s (BeforeEach testConfig testSetup W s) =
              lookupCalls testConfig testSetup ++
                [entitlementCheck testConfig testSetup W s, isoSpaceLookup testConfig,
                  assignmentCheck testConfig testSetup W s] :=
            issued_append s _ _ (by simp [hB, ht])
          simp [hi, lookupCalls, entitlementCheck, isoSpaceLookup, assignmentCheck] at hmem
        · exact ⟨rfl, rfl⟩
    · rintro ⟨he, ha⟩
      obtain ⟨rest, ht⟩ := h3 he ha
      refine ⟨["/v3/organizations?names=" ++ testSetup.Org], ?_⟩
      rw [issued_append s _ _ ht]
      simp

/-- C2, at a concrete input: on a platform where the org is not entitled, the
setup of a pre-existing org and space fails, naming the org and the isolation
segment. -/
theorem C2_witness :
    existingConfig.EnableIsolationSegmentTests = true
      ∧ existingConfig.GetUseExistingOrganization = true
      ∧ existingConfig.GetUseExistingSpace = true
      ∧ orgEntitled existingConfig demoSetup notEntitledWorld initialState = false
      ∧ ∃ msg s', BeforeEach existingConfig demoSetup notEntitledWorld initialState
            = .failed (.Fail msg) s'
          ∧ ContainSubstring msg "smoke-org" = true
          ∧ ContainSubstring msg "iso-seg" = true :=
  ⟨rfl, rfl, rfl, rfl,
    match (C2_existing_org_space_preconditions existingConfig demoSetup notEntitledWorld
      initialState rfl rfl rfl).1 rfl with
    | ⟨msg, s', hB, ho, hn, _⟩ => ⟨msg, s', hB, ho, hn⟩⟩

/-! ## The blocks in closed form -/

theorem Shared_BeforeEach_eq (testConfig : Config) (testSetup : TestSetup) (W : World) (s : St) :
    Shared_BeforeEach testConfig testSetup W s =
      if (W.Cf (s.trace ++ sharedProvisionCalls testConfig testSetup s.vars)
          (pushArgs s.vars.appName s.vars.appsDomain)).ExitCodeWithin testConfig.GetPushTimeout
          = some 0 then
        .passed () { s with trace := s.trace ++ (sharedProvisionCalls testConfig testSetup s.vars
          ++ [.Cf (pushArgs s.vars.appName s.vars.appsDomain)]) }
      else
        .failed .Expectation { s with trace := s.trace ++
          (sharedProvisionCalls testConfig testSetup s.vars
            ++ [.Cf (pushArgs s.vars.appName s.vars.appsDomain)]) } := by
  cases hO : testConfig.GetUseExistingOrganization <;>
    cases hS : testConfig.GetUseExistingSpace <;>
    simp [Shared_BeforeEach, sharedProvisionCalls, pushArgs, binaryAppBitsPath, hO, hS]

theorem Iso_BeforeEach_eq (testConfig : Config) (W : World) (s : St) :
    Iso_BeforeEach testConfig W s =
      if (W.Cf (s.trace ++ (isoProvisionCalls testConfig W s ++
            [.PrefixedRandomName "SMOKES" "APP"]))
          ["target", "-s", s.vars.isoSpaceName]).ExitCodeWithin testConfig.GetDefaultTimeout
          = some 0 then
        if (W.Cf (s.trace ++ (isoProvisionCalls testConfig W s ++
              [.PrefixedRandomName "SMOKES" "APP", .Cf ["target", "-s", s.vars.isoSpaceName]]))
            (pushArgs (line126_appName testConfig W s) s.vars.isoSegDomain)).ExitCodeWithin
              testConfig.GetPushTimeout = some 0 then
          .passed ()
            { vars := { s.vars with isoSegGUID := line118_isoSegGUID testConfig W s,
                                    ctx_appName := line126_appName testConfig W s },
              trace := s.trace ++ (isoProvisionCalls testConfig W s ++
                [.PrefixedRandomName "SMOKES" "APP", .Cf ["target", "-s", s.vars.isoSpaceName],
                 .Cf (pushArgs (line126_appName testConfig W s) s.vars.isoSegDomain)]) }
        else
          .failed .Expectation
            { vars := { s.vars with isoSegGUID := line118_isoSegGUID testConfig W s,
                                    ctx_appName := line126_appName testConfig W s },
              trace := s.trace ++ (isoProvisionCalls testConfig W s ++
                [.PrefixedRandomName "SMOKES" "APP", .Cf ["target", "-s", s.vars.isoSpaceName],
                 .Cf (pushArgs (line126_appName testConfig W s) s.vars.isoSegDomain)]) }
      else
        .failed .Expectation
          { vars := { s.vars with isoSegGUID := line118_isoSegGUID testConfig W s,
                                  ctx_appName := line126_appName testConfig W s },
            trace := s.trace ++ (isoProvisionCalls testConfig W s ++
              [.PrefixedRandomName "SMOKES" "APP", .Cf ["target", "-s", s.vars.isoSpaceName]]) } := by
  cases hO : testConfig.GetUseExistingOrganization <;>
    cases hS : testConfig.GetUseExistingSpace <;>
    simp [Iso_BeforeEach, isoProvisionCalls, line126_appName, line118_isoSegGUID, pushArgs,
      binaryAppBitsPath, hO, hS]

theorem BeforeEach_passed (testConfig : Config) (testSetup : TestSetup) (W : World) (s s0 : St)
    (h : BeforeEach testConfig testSetup W s = .passed () s0) :
    testConfig.EnableIsolationSegmentTests = true
      ∧ s0.trace = s.trace ++ (lookupCalls testConfig testSetup
          ++ precheckCalls testConfig testSetup W s
          ++ [orgCurl testSetup,
              .GetGUIDFromResponse (line63_session testConfig testSetup W s).Out])
      ∧ s0.vars =
          { appsDomain := testConfig.GetAppsDomains
            orgGUID := line65_orgGUID testConfig testSetup W s
            orgName := testSetup.Org
            spaceGUID := line44_spaceGUID testConfig testSetup W s
            spaceName := testSetup.Space
            isoSpaceGUID :=
              if testConfig.GetUseExistingOrganization && testConfig.GetUseExistingSpace then
                line57_isoSpaceGUID testConfig testSetup W s
              else line44_spaceGUID testConfig testSetup W s
            isoSpaceName :=
              if testConfig.GetUseExistingOrganization && testConfig.GetUseExistingSpace then
                testConfig.GetIsolationSegmentSpace
              else testSetup.Space
            isoSegGUID := s.vars.isoSegGUID
            isoSegName := testConfig.GetIsolationSegmentName
            isoSegDomain := testConfig.GetIsolationSegmentDomain
            appName := line47_appName testConfig testSetup W s
            ctx_appName := s.vars.ctx_appName } := by
  cases hE : testConfig.EnableIsolationSegmentTests
  · simp [BeforeEach, hE] at h
  · cases hO : testConfig.GetUseExistingOrganization <;>
      cases hS : testConfig.GetUseExistingSpace <;>
      simp only [BeforeEach, hE, hO, hS] at h <;>
      simp at h <;>
      (repeat' split at h) <;>
      simp at h <;>
      subst h <;>
      simp [lookupCalls, precheckCalls, orgCurl, line63_session, line65_orgGUID, hO, hS,
        line44_spaceGUID, line47_appName, line57_isoSpaceGUID, entitlementCheck,
        isoSpaceLookup, assignmentCheck, line42_orgGUID]

theorem andThen_eq_passed {α β : Type} (r : Outcome α) (f : α → TestM β) (b : β) (s1 : St)
    (h : r.andThen f = .passed b s1) : ∃ a s0, r = .passed a s0 ∧ f a s0 = .passed b s1 := by
  cases r with
  | passed a s0 => exact ⟨a, s0, rfl, h⟩
  | skipped m s0 => simp at h
  | failed e s0 => simp at h

/-- The setup of a test case of the shared scenario that passed: the state it
leaves. -/
theorem shared_setup_passed (testConfig : Config) (testSetup : TestSetup) (W : World)
    (s s0 s1 : St)
    (hB : BeforeEach testConfig testSetup W s = .passed () s0)
    (hC : Shared_BeforeEach testConfig testSetup W s0 = .passed () s1) :
    s1.vars = s0.vars
      ∧ s1.trace = s0.trace ++ sharedProvisionCalls testConfig testSetup s0.vars
          ++ [.Cf (pushArgs (line47_appName testConfig testSetup W s) testConfig.GetAppsDomains)]
      ∧ (W.Cf (s0.trace ++ sharedProvisionCalls testConfig testSetup s0.vars)
          (pushArgs (line47_appName testConfig testSetup W s)
            testConfig.GetAppsDomains)).ExitCodeWithin testConfig.GetPushTimeout = some 0 := by
  obtain ⟨-, -, hv⟩ := BeforeEach_passed testConfig testSetup W s s0 hB
  rw [Shared_BeforeEach_eq] at hC
  split at hC
  · rename_i hx
    simp at hC
    subst hC
    simp [hv] at hx ⊢
    exact hx
  · simp at hC

/-- The setup of a test case of the isolation-segment scenario that passed: the
state it leaves. -/
theorem iso_setup_passed (testConfig : Config) (testSetup : TestSetup) (W : World)
    (s s0 s1 : St)
    (hB : BeforeEach testConfig testSetup W s = .passed () s0)
    (hC : Iso_BeforeEach testConfig W s0 = .passed () s1) :
    s1.vars = { s0.vars with isoSegGUID := line118_isoSegGUID testConfig W s0,
                             ctx_appName := line126_appName testConfig W s0 }
      ∧ s1.trace = s0.trace ++ (isoProvisionCalls testConfig W s0 ++
          [.PrefixedRandomName "SMOKES" "APP", .Cf ["target", "-s", s0.vars.isoSpaceName]])
          ++ [.Cf (pushArgs (line126_appName testConfig W s0)
                testConfig.GetIsolationSegmentDomain)]
      ∧ (W.Cf (s0.trace ++ (isoProvisionCalls testConfig W s0 ++
            [.PrefixedRandomName "SMOKES" "APP", .Cf ["target", "-s", s0.vars.isoSpaceName]]))
          (pushArgs (line126_appName testConfig W s0)
            testConfig.GetIsolationSegmentDomain)).ExitCodeWithin testConfig.GetPushTimeout
          = some 0 := by
  obtain ⟨-, -, hv⟩ := BeforeEach_passed testConfig testSetup W s s0 hB
  rw [Iso_BeforeEach_eq] at hC
  split at hC
  · split at hC
    · rename_i hx
      simp at hC
      subst hC
      simp [hv] at hx ⊢
      exact hx
    · simp at hC
  · simp at hC

/-- The calls of a "reachable" test: the probe, then `ReadAll` when the status
is 200, then the deferred `Close`. -/
theorem Shared_It_reachable_trace (W : World) (s : St) :
    ∃ rest, (Shared_It_reachable W s).state.trace =
        s.trace ++ (.SendRequestWithSpoofedHeader (s.vars.appName ++ "." ++ s.vars.appsDomain)
          s.vars.appsDomain :: rest)
      ∧ ∀ a ∈ rest, a = .ReadAll ∨ a = .BodyClose := by
  simp only [Shared_It_reachable]
  cases hp : W.SendRequestWithSpoofedHeader s.trace (s.vars.appName ++ "." ++ s.vars.appsDomain)
      s.vars.appsDomain with
  | none => exact ⟨[], by simp [hp]⟩
  | some r =>
    by_cases h200 : r.StatusCode = 200
    · by_cases herr : r.err.isNone = true
      · by_cases hc : ContainSubstring r.htmlData binaryHi = true
        · exact ⟨[.ReadAll, .BodyClose], by simp [hp, h200, herr, hc]⟩
        · exact ⟨[.ReadAll, .BodyClose], by simp [hp, h200, herr, hc]⟩
      · exact ⟨[.ReadAll, .BodyClose], by simp [hp, h200, herr]⟩
    · exact ⟨[.BodyClose], by simp [hp, h200]⟩

/-- The calls of a "reachable" test: the probe, then `ReadAll` when the status
is 200, then the deferred `Close`. -/
theorem Iso_It_reachable_trace (W : World) (s : St) :
    ∃ rest, (Iso_It_reachable W s).state.trace =
        s.trace ++ (.SendRequestWithSpoofedHeader (s.vars.ctx_appName ++ "." ++ s.vars.isoSegDomain)
          s.vars.isoSegDomain :: rest)
      ∧ ∀ a ∈ rest, a = .ReadAll ∨ a = .BodyClose := by
  simp only [Iso_It_reachable]
  cases hp : W.SendRequestWithSpoofedHeader s.trace (s.vars.ctx_appName ++ "." ++ s.vars.isoSegDomain)
      s.vars.isoSegDomain with
  | none => exact ⟨[], by simp [hp]⟩
  | some r =>
    by_cases h200 : r.StatusCode = 200
    · by_cases herr : r.err.isNone = true
      · by_cases hc : ContainSubstring r.htmlData binaryHi = true
        · exact ⟨[.ReadAll, .BodyClose], by simp [hp, h200, herr, hc]⟩
        · exact ⟨[.ReadAll, .BodyClose], by simp [hp, h200, herr, hc]⟩
      · exact ⟨[.ReadAll, .BodyClose], by simp [hp, h200, herr]⟩
    · exact ⟨[.BodyClose], by simp [hp, h200]⟩

/-- The calls of a "not reachable" test: the probe, then the deferred `Close`. -/
theorem Shared_It_not_reachable_trace (W : World) (s : St) :
    ∃ rest, (Shared_It_not_reachable W s).state.trace =
        s.trace ++ (.SendRequestWithSpoofedHeader (s.vars.appName ++ "." ++ s.vars.appsDomain)
          s.vars.isoSegDomain :: rest)
      ∧ ∀ a ∈ rest, a = .ReadAll ∨ a = .BodyClose := by
  simp only [Shared_It_not_reachable]
  cases hp : W.SendRequestWithSpoofedHeader s.trace (s.vars.appName ++ "." ++ s.vars.appsDomain)
      s.vars.isoSegDomain with
  | none => exact ⟨[], by simp [hp]⟩
  | some r =>
    by_cases h404 : r.StatusCode = 404
    · exact ⟨[.BodyClose], by simp [hp, h404]⟩
    · exact ⟨[.BodyClose], by simp [hp, h404]⟩

/-- The calls of a "not reachable" test: the probe, then the deferred `Close`. -/
theorem Iso_It_not_reachable_trace (W : World) (s : St) :
    ∃ rest, (Iso_It_not_reachable W s).state.trace =
        s.trace ++ (.SendRequestWithSpoofedHeader (s.vars.ctx_appName ++ "." ++ s.vars.isoSegDomain)
          s.vars.appsDomain :: rest)
      ∧ ∀ a ∈ rest, a = .ReadAll ∨ a = .BodyClose := by
  simp only [Iso_It_not_reachable]
  cases hp : W.SendRequestWithSpoofedHeader s.trace (s.vars.ctx_appName ++ "." ++ s.vars.isoSegDomain)
      s.vars.appsDomain with
  | none => exact ⟨[], by simp [hp]⟩
  | some r =>
    by_cases h404 : r.StatusCode = 404
    · exact ⟨[.BodyClose], by simp [hp, h404]⟩
    · exact ⟨[.BodyClose], by simp [hp, h404]⟩

/-! ## The probes (C3) -/

/-- C3: when the setup of a test case passed, the last call of the setup is the
push of an app `name` to the domain of the scenario (the apps domain in the
shared scenario, the isolation segment domain in the isolation-segment
scenario) and the only push of the setup, and the first call of the `It` block
is the probe with Target Hostname `name ++ "." ++ domain` through the router
domain of the test case; the `It` block issues no other probe. So both test
cases of a scenario present the host name of the app that was pushed and differ
only in the router domain. -/
theorem C3_probe_presents_pushed_app (testConfig : Config) (testSetup : TestSetup) (W : World)
    (tc : TestCase) (s s1 : St)
    (h : tc.setup testConfig testSetup W s = .passed () s1) :
    ∃ pre name rest,
      s1.trace = s.trace ++ pre ++ [Action.Cf (pushArgs name (tc.pushDomain testConfig))]
      ∧ (∀ args, Action.Cf ("push" :: args) ∉ pre)
      ∧ (tc.it W s1).state.trace = s1.trace ++
          (Action.SendRequestWithSpoofedHeader (name ++ "." ++ tc.pushDomain testConfig)
            (tc.routerDomain testConfig) :: rest)
      ∧ (∀ a ∈ rest, a = Action.ReadAll ∨ a = Action.BodyClose) := by
  simp only [TestCase.setup, bind_apply] at h
  obtain ⟨_, s0, hB, hC⟩ := andThen_eq_passed _ _ _ _ h
  obtain ⟨-, ht0, hv0⟩ := BeforeEach_passed testConfig testSetup W s s0 hB
  have hpre : ∀ args, Action.Cf ("push" :: args) ∉
      lookupCalls testConfig testSetup ++ precheckCalls testConfig testSetup W s ++
        [orgCurl testSetup,
          .GetGUIDFromResponse (line63_session testConfig testSetup W s).Out] := by
    intro args
    cases hO : testConfig.GetUseExistingOrganization <;>
      cases hS : testConfig.GetUseExistingSpace <;>
      simp [lookupCalls, precheckCalls, orgCurl, entitlementCheck, isoSpaceLookup,
        assignmentCheck, hO, hS]
  obtain ⟨pre0, hp0⟩ : ∃ p, p = lookupCalls testConfig testSetup ++
      precheckCalls testConfig testSetup W s ++ [orgCurl testSetup,
        .GetGUIDFromResponse (line63_session testConfig testSetup W s).Out] := ⟨_, rfl⟩
  rw [← hp0] at ht0 hpre
  cases tc with
  | shared_reachable =>
    obtain ⟨hv, ht, -⟩ := shared_setup_passed testConfig testSetup W s s0 s1 hB hC
    obtain ⟨rest, hr, hrest⟩ := Shared_It_reachable_trace W s1
    refine ⟨pre0 ++ sharedProvisionCalls testConfig testSetup s0.vars,
      line47_appName testConfig testSetup W s, rest, ?_, ?_, ?_, hrest⟩
    · simp [ht, ht0, TestCase.pushDomain]
    · intro args hmem
      rcases List.mem_append.1 hmem with hm | hm
      · exact hpre args hm
      · cases hO : testConfig.GetUseExistingOrganization <;>
          cases hS : testConfig.GetUseExistingSpace <;>
          simp [sharedProvisionCalls, hO, hS] at hm
    · simpa [TestCase.it, TestCase.pushDomain, TestCase.routerDomain, hv, hv0] using hr
  | shared_not_reachable =>
    obtain ⟨hv, ht, -⟩ := shared_setup_passed testConfig testSetup W s s0 s1 hB hC
    obtain ⟨rest, hr, hrest⟩ := Shared_It_not_reachable_trace W s1
    refine ⟨pre0 ++ sharedProvisionCalls testConfig testSetup s0.vars,
      line47_appName testConfig testSetup W s, rest, ?_, ?_, ?_, hrest⟩
    · simp [ht, ht0, TestCase.pushDomain]
    · intro args hmem
      rcases List.mem_append.1 hmem with hm | hm
      · exact hpre args hm
      · cases hO : testConfig.GetUseExistingOrganization <;>
          cases hS : testConfig.GetUseExistingSpace <;>
          simp [sharedProvisionCalls, hO, hS] at hm
    · simpa [TestCase.it, TestCase.pushDomain, TestCase.routerDomain, hv, hv0] using hr
  | iso_reachable =>
    obtain ⟨hv, ht, -⟩ := iso_setup_passed testConfig testSetup W s s0 s1 hB hC
    obtain ⟨rest, hr, hrest⟩ := Iso_It_reachable_trace W s1
    refine ⟨pre0 ++ (isoProvisionCalls testConfig W s0 ++
        [.PrefixedRandomName "SMOKES" "APP", .Cf ["target", "-s", s0.vars.isoSpaceName]]),
      line126_appName testConfig W s0, rest, ?_, ?_, ?_, hrest⟩
    · simp [ht, ht0, TestCase.pushDomain]
    · intro args hmem
      rcases List.mem_append.1 hmem with hm | hm
      · exact hpre args hm
      · cases hO : testConfig.GetUseExistingOrganization <;>
          cases hS : testConfig.GetUseExistingSpace <;>
          simp [isoProvisionCalls, hO, hS] at hm
    · simpa [TestCase.it, TestCase.pushDomain, TestCase.routerDomain, hv, hv0] using hr
  | iso_not_reachable =>
    obtain ⟨hv, ht, -⟩ := iso_setup_passed testConfig testSetup W s s0 s1 hB hC
    obtain ⟨rest, hr, hrest⟩ := Iso_It_not_reachable_trace W s1
    refine ⟨pre0 ++ (isoProvisionCalls testConfig W s0 ++
        [.PrefixedRandomName "SMOKES" "APP", .Cf ["target", "-s", s0.vars.isoSpaceName]]),
      line126_appName testConfig W s0, rest, ?_, ?_, ?_, hrest⟩
    · simp [ht, ht0, TestCase.pushDomain]
    · intro args hmem
      rcases List.mem_append.1 hmem with hm | hm
      · exact hpre args hm
      · cases hO : testConfig.GetUseExistingOrganization <;>
          cases hS : testConfig.GetUseExistingSpace <;>
          simp [isoProvisionCalls, hO, hS] at hm
    · simpa [TestCase.it, TestCase.pushDomain, TestCase.routerDomain, hv, hv0] using hr

/-- C3, at a concrete input: app `SMOKES-APP-xxxx` pushed to `apps.example.com`
is probed with Host `SMOKES-APP-xxxx.apps.example.com` through
`iso.example.com`. -/
theorem C3_witness :
    TestCase.setup demoConfig demoSetup demoWorld .shared_not_reachable initialState
        = .passed () demoSharedState
      ∧ ∃ pre name rest,
          demoSharedState.trace = [] ++ pre ++ [Action.Cf (pushArgs name "apps.example.com")]
          ∧ (∀ args, Action.Cf ("push" :: args) ∉ pre)
          ∧ (Shared_It_not_reachable demoWorld demoSharedState).state.trace =
              demoSharedState.trace ++
                (Action.SendRequestWithSpoofedHeader (name ++ "." ++ "apps.example.com")
                  "iso.example.com" :: rest)
          ∧ (∀ a ∈ rest, a = Action.ReadAll ∨ a = Action.BodyClose) :=
  ⟨rfl, C3_probe_presents_pushed_app demoConfig demoSetup demoWorld .shared_not_reachable
    initialState demoSharedState rfl⟩

/-! ## The verdict of the `It` blocks -/

/-- The verdict of the four `It` blocks: once the probe has returned the response
`r`, a "reachable" block passes if and only if the status code is 200, the body
is read without error and the body contains "Hello from a binary", and
otherwise fails; on a status other than 200 it does not read the body. A "not
reachable" block passes if and only if the status code is 404, whatever the
body, and otherwise fails. -/
theorem It_verdict_of_response (W : World) (s : St) (r : Response) :
    (W.SendRequestWithSpoofedHeader s.trace (s.vars.appName ++ "." ++ s.vars.appsDomain)
        s.vars.appsDomain = some r →
      ((Shared_It_reachable W s).isPassed = true ↔
          (r.StatusCode = 200 ∧ r.err = none
            ∧ ContainSubstring r.htmlData "Hello from a binary" = true))
        ∧ ((Shared_It_reachable W s).isPassed = false → (Shared_It_reachable W s).isFailed = true)
        ∧ (r.StatusCode ≠ 200 → Action.ReadAll ∉ issued s (Shared_It_reachable W s)))
    ∧ (W.SendRequestWithSpoofedHeader s.trace (s.vars.ctx_appName ++ "." ++ s.vars.isoSegDomain)
        s.vars.isoSegDomain = some r →
      ((Iso_It_reachable W s).isPassed = true ↔
          (r.StatusCode = 200 ∧ r.err = none
            ∧ ContainSubstring r.htmlData "Hello from a binary" = true))
        ∧ ((Iso_It_reachable W s).isPassed = false → (Iso_It_reachable W s).isFailed = true)
        ∧ (r.StatusCode ≠ 200 → Action.ReadAll ∉ issued s (Iso_It_reachable W s)))
    ∧ (W.SendRequestWithSpoofedHeader s.trace (s.vars.appName ++ "." ++ s.vars.appsDomain)
        s.vars.isoSegDomain = some r →
      ((Shared_It_not_reachable W s).isPassed = true ↔ r.StatusCode = 404)
        ∧ ((Shared_It_not_reachable W s).isPassed = false →
            (Shared_It_not_reachable W s).isFailed = true))
    ∧ (W.SendRequestWithSpoofedHeader s.trace (s.vars.ctx_appName ++ "." ++ s.vars.isoSegDomain)
        s.vars.appsDomain = some r →
      ((Iso_It_not_reachable W s).isPassed = true ↔ r.StatusCode = 404)
        ∧ ((Iso_It_not_reachable W s).isPassed = false →
            (Iso_It_not_reachable W s).isFailed = true)) := by
  refine ⟨?_, ?_, ?_, ?_⟩
  · intro hp
    by_cases h200 : r.StatusCode = 200
    · cases herr : r.err <;>
        by_cases hc : ContainSubstring r.htmlData binaryHi = true <;>
        simp_all [Shared_It_reachable, issued, binaryHi]
    · simp [Shared_It_reachable, issued, hp, h200]
  · intro hp
    by_cases h200 : r.StatusCode = 200
    · cases herr : r.err <;>
        by_cases hc : ContainSubstring r.htmlData binaryHi = true <;>
        simp_all [Iso_It_reachable, issued, binaryHi]
    · simp [Iso_It_reachable, issued, hp, h200]
  · intro hp
    by_cases h404 : r.StatusCode = 404 <;> simp [Shared_It_not_reachable, hp, h404]
  · intro hp
    by_cases h404 : r.StatusCode = 404 <;> simp [Iso_It_not_reachable, hp, h404]

/-! ## The response body (C8) -/

/-- C8: once the probe has returned a response, each of the four `It` blocks
closes the response body exactly once, as its last call, whatever the status
code, the outcome of reading the body and the content of the body are; that is
on every exit path: all assertions pass, the status-code assertion fails,
reading the body fails, the marker assertion fails. -/
theorem C8_body_closed_exactly_once (W : World) (s : St) (r : Response) :
    (W.SendRequestWithSpoofedHeader s.trace (s.vars.appName ++ "." ++ s.vars.appsDomain)
        s.vars.appsDomain = some r →
      (issued s (Shared_It_reachable W s)).count Action.BodyClose = 1
        ∧ (issued s (Shared_It_reachable W s)).getLast? = some Action.BodyClose)
    ∧ (W.SendRequestWithSpoofedHeader s.trace (s.vars.appName ++ "." ++ s.vars.appsDomain)
        s.vars.isoSegDomain = some r →
      (issued s (Shared_It_not_reachable W s)).count Action.BodyClose = 1
        ∧ (issued s (Shared_It_not_reachable W s)).getLast? = some Action.BodyClose)
    ∧ (W.SendRequestWithSpoofedHeader s.trace (s.vars.ctx_appName ++ "." ++ s.vars.isoSegDomain)
        s.vars.isoSegDomain = some r →
      (issued s (Iso_It_reachable W s)).count Action.BodyClose = 1
        ∧ (issued s (Iso_It_reachable W s)).getLast? = some Action.BodyClose)
    ∧ (W.SendRequestWithSpoofedHeader s.trace (s.vars.ctx_appName ++ "." ++ s.vars.isoSegDomain)
        s.vars.appsDomain = some r →
      (issued s (Iso_It_not_reachable W s)).count Action.BodyClose = 1
        ∧ (issued s (Iso_It_not_reachable W s)).getLast? = some Action.BodyClose) := by
  refine ⟨?_, ?_, ?_, ?_⟩
  · intro hp
    by_cases h200 : r.StatusCode = 200
    · cases herr : r.err <;>
        by_cases hc : ContainSubstring r.htmlData binaryHi = true <;>
        simp [Shared_It_reachable, issued, hp, h200, herr, hc]
    · simp [Shared_It_reachable, issued, hp, h200]
  · intro hp
    by_cases h404 : r.StatusCode = 404 <;> simp [Shared_It_not_reachable, issued, hp, h404]
  · intro hp
    by_cases h200 : r.StatusCode = 200
    · cases herr : r.err <;>
        by_cases hc : ContainSubstring r.htmlData binaryHi = true <;>
        simp [Iso_It_reachable, issued, hp, h200, herr, hc]
    · simp [Iso_It_reachable, issued, hp, h200]
  · intro hp
    by_cases h404 : r.StatusCode = 404 <;> simp [Iso_It_not_reachable, issued, hp, h404]

/-- C8, at a concrete input: on `demoWorld` the isolated app answers with the
greeting through the isolated router, and the test "the app is reachable from
the isolated router" closes the body once, as its last call. -/
theorem C8_witness :
    demoWorld.SendRequestWithSpoofedHeader demoIsoState.trace
        (demoIsoState.vars.ctx_appName ++ "." ++ demoIsoState.vars.isoSegDomain)
        demoIsoState.vars.isoSegDomain = some helloResponse
      ∧ (issued demoIsoState (Iso_It_reachable demoWorld demoIsoState)).count Action.BodyClose = 1
      ∧ (issued demoIsoState (Iso_It_reachable demoWorld demoIsoState)).getLast?
          = some Action.BodyClose :=
  ⟨rfl, (C8_body_closed_exactly_once demoWorld demoIsoState helloResponse).2.2.1 rfl⟩

/-! ## Cleanup (C5, C6) -/

/-- The `AfterEach` in closed form. -/
theorem AfterEach_eq (testConfig : Config) (W : World) (s : St) :
    AfterEach testConfig W s =
      if testConfig.Cleanup = true then
        if (W.Cf s.trace ["delete", s.vars.appName, "-f", "-r"]).ExitCodeWithin
            testConfig.GetDefaultTimeout = some 0 then
          .passed () { s with trace := s.trace ++ [.Cf ["delete", s.vars.appName, "-f", "-r"]] }
        else
          .failed .Expectation
            { s with trace := s.trace ++ [.Cf ["delete", s.vars.appName, "-f", "-r"]] }
      else .passed () s := by
  cases hC : testConfig.Cleanup
  · simp [AfterEach, hC]
  · cases hx : (W.Cf s.trace ["delete", s.vars.appName, "-f", "-r"]).ExitCodeWithin
        testConfig.GetDefaultTimeout <;>
      simp [AfterEach, hC, hx]

theorem AfterEach_issued (testConfig : Config) (W : World) (s : St) :
    issued s (AfterEach testConfig W s) =
      (if testConfig.Cleanup then [Action.Cf ["delete", s.vars.appName, "-f", "-r"]]
        else []) := by
  apply issued_append
  rw [AfterEach_eq]
  cases hC : testConfig.Cleanup
  · simp
  · by_cases hx : (W.Cf s.trace ["delete", s.vars.appName, "-f", "-r"]).ExitCodeWithin
        testConfig.GetDefaultTimeout = some 0 <;> simp [hx]

theorem runSample_eq (testConfig : Config) (testSetup : TestSetup) (W : World) (tc : TestCase)
    (s : St) :
    runSample testConfig testSetup W tc s =
      match tc.blocks testConfig testSetup W s with
      | .passed _ s' => AfterEach testConfig W s'
      | .skipped m s' => .skipped m (AfterEach testConfig W s').state
      | .failed e s' => .failed e (AfterEach testConfig W s').state := by
  simp only [runSample]
  cases tc.blocks testConfig testSetup W s <;> rfl

/-- The top-level `BeforeEach` issues no push. -/
theorem BeforeEach_trace (testConfig : Config) (testSetup : TestSetup) (W : World) (s : St) :
    ∃ l, (BeforeEach testConfig testSetup W s).state.trace = s.trace ++ l
      ∧ ∀ a ∈ l, a.isPush = false := by
  cases hE : testConfig.EnableIsolationSegmentTests
  · exact ⟨[], by simp [BeforeEach, hE]⟩
  · cases hO : testConfig.GetUseExistingOrganization <;>
      cases hS : testConfig.GetUseExistingSpace <;>
      simp only [BeforeEach, hE, hO, hS] <;>
      simp <;>
      (repeat' split) <;>
      exact ⟨_, rfl, by simp [Action.isPush]⟩

/-- C6, as stated, fails: on a platform where everything passes but `cf delete`
exits 1, with `Cleanup` set, the blocks before the `AfterEach` pass, the delete
is issued, and the test case is failed. -/
theorem C6_counterexample_failed_delete_fails_test :
    demoConfig.Cleanup = true
      ∧ (TestCase.blocks demoConfig demoSetup deleteFailsWorld .shared_reachable
          initialState).isPassed = true
      ∧ Action.Cf ["delete", "SMOKES-APP-xxxx", "-f", "-r"] ∈
          issued initialState
            (runSample demoConfig demoSetup deleteFailsWorld .shared_reachable initialState)
      ∧ (runSample demoConfig demoSetup deleteFailsWorld .shared_reachable
          initialState).isFailed = true := by
  decide

/-- C6, amended: the `AfterEach` issues the delete command if and only if the
`Cleanup` flag is set, and with the flag unset it issues no call at all; when
the delete is issued after blocks that all passed, the test case passes if and
only if the delete exits 0 within the default timeout, and is failed otherwise;
a test case whose earlier blocks were skipped or failed keeps that verdict. -/
theorem C6_cleanup_only_when_enabled (testConfig : Config) (testSetup : TestSetup) (W : World)
    (tc : TestCase) (s : St) :
    ((∃ a ∈ issued s (AfterEach testConfig W s), a.isDelete = true) ↔ testConfig.Cleanup = true)
      ∧ issued s (AfterEach testConfig W s) =
          (if testConfig.Cleanup then [Action.Cf ["delete", s.vars.appName, "-f", "-r"]] else [])
      ∧ (testConfig.Cleanup = true →
          (tc.blocks testConfig testSetup W s).isPassed = true →
          (((runSample testConfig testSetup W tc s).isPassed = true ↔
              (W.Cf (tc.blocks testConfig testSetup W s).state.trace
                ["delete", (tc.blocks testConfig testSetup W s).state.vars.appName, "-f", "-r"]
                ).ExitCodeWithin testConfig.GetDefaultTimeout = some 0)
            ∧ ((runSample testConfig testSetup W tc s).isPassed = false →
                (runSample testConfig testSetup W tc s).isFailed = true)))
      ∧ ((tc.blocks testConfig testSetup W s).isPassed = false →
          (runSample testConfig testSetup W tc s).isSkipped
              = (tc.blocks testConfig testSetup W s).isSkipped
            ∧ (runSample testConfig testSetup W tc s).isFailed
              = (tc.blocks testConfig testSetup W s).isFailed) := by
  have hi := AfterEach_issued testConfig W s
  refine ⟨?_, hi, ?_, ?_⟩
  · rw [hi]
    cases hC : testConfig.Cleanup <;> simp [Action.isDelete]
  · intro hC hp
    rw [runSample_eq]
    cases hb : tc.blocks testConfig testSetup W s with
    | passed a s' =>
      simp only [Outcome.state]
      rw [AfterEach_eq]
      by_cases hx : (W.Cf s'.trace ["delete", s'.vars.appName, "-f", "-r"]).ExitCodeWithin
          testConfig.GetDefaultTimeout = some 0 <;> simp [hC, hx]
    | skipped m s' => simp [hb] at hp
    | failed e s' => simp [hb] at hp
  · intro hp
    rw [runSample_eq]
    cases hb : tc.blocks testConfig testSetup W s with
    | passed a s' => simp [hb] at hp
    | skipped m s' => simp
    | failed e s' => simp

/-- C6 amended, at a concrete input: on `demoWorld` with `Cleanup` set the test
case passes, since the delete exits 0. -/
theorem C6_witness :
    demoConfig.Cleanup = true
      ∧ (TestCase.blocks demoConfig demoSetup demoWorld .shared_reachable
          initialState).isPassed = true
      ∧ (runSample demoConfig demoSetup demoWorld .shared_reachable initialState).isPassed
          = true :=
  ⟨rfl, rfl,
    ((C6_cleanup_only_when_enabled demoConfig demoSetup demoWorld .shared_reachable
      initialState).2.2.1 rfl rfl).1.2 rfl⟩

/-- C5, at the failing input: in the isolation-segment scenario on `demoWorld`,
with `Cleanup` set, the test case passes, the app that is pushed is
`SMOKES-APP-yyyy`, generated on line 126, and the app that is deleted is
`SMOKES-APP-xxxx`, generated on line 47 and never pushed; no delete of the
pushed app is issued. -/
theorem C5_iso_scenario_deletes_an_app_that_was_not_pushed :
    (runSample demoConfig demoSetup demoWorld .iso_reachable initialState).isPassed = true
      ∧ issued initialState (runSample demoConfig demoSetup demoWorld .iso_reachable initialState)
        = [Action.GetOrgGUIDFromName "smoke-org" 30,
           Action.GetSpaceGUIDFromName "smoke-space" 30,
           Action.PrefixedRandomName "SMOKES" "APP",
           Action.Cf ["curl", "/v3/organizations?names=smoke-org"],
           Action.GetGUIDFromResponse "org-guid",
           Action.GetIsolationSegmentGUID "iso-seg" 30,
           Action.EntitleOrgToIsolationSegment "org-guid" "guid-of-iso-seg" 30,
           Action.AssignIsolationSegmentToSpace "guid-of-smoke-space" "guid-of-iso-seg" 30,
           Action.PrefixedRandomName "SMOKES" "APP",
           Action.Cf ["target", "-s", "smoke-space"],
           Action.Cf ["push", "SMOKES-APP-yyyy", "-p", "../../assets/binary", "-b",
             "binary_buildpack", "-d", "iso.example.com", "-c", "./app"],
           Action.SendRequestWithSpoofedHeader "SMOKES-APP-yyyy.iso.example.com"
             "iso.example.com",
           Action.ReadAll,
           Action.BodyClose,
           Action.Cf ["delete", "SMOKES-APP-xxxx", "-f", "-r"]] := by
  decide

/-- The shared scenario deletes the app it pushed: when the setup passed, the
push of the setup and the delete of the `AfterEach` name the same app. -/
theorem shared_scenario_deletes_the_pushed_app (testConfig : Config) (testSetup : TestSetup)
    (W : World) (s s0 s1 s2 : St) (hC : testConfig.Cleanup = true)
    (hB : BeforeEach testConfig testSetup W s = .passed () s0)
    (hS : Shared_BeforeEach testConfig testSetup W s0 = .passed () s1)
    (hv : s2.vars = s1.vars) :
    ∃ pre name, s1.trace = pre ++ [Action.Cf (pushArgs name testConfig.GetAppsDomains)]
      ∧ issued s2 (AfterEach testConfig W s2) = [Action.Cf ["delete", name, "-f", "-r"]] := by
  obtain ⟨hv1, ht, -⟩ := shared_setup_passed testConfig testSetup W s s0 s1 hB hS
  obtain ⟨-, -, hv0⟩ := BeforeEach_passed testConfig testSetup W s s0 hB
  refine ⟨_, line47_appName testConfig testSetup W s, ht, ?_⟩
  rw [AfterEach_issued]
  simp [hC, hv, hv1, hv0]

/-- The isolation-segment scenario pushes the app named on line 126 and deletes
the app named on line 47. -/
theorem iso_scenario_push_and_delete_names (testConfig : Config) (testSetup : TestSetup)
    (W : World) (s s0 s1 s2 : St) (hC : testConfig.Cleanup = true)
    (hB : BeforeEach testConfig testSetup W s = .passed () s0)
    (hS : Iso_BeforeEach testConfig W s0 = .passed () s1)
    (hv : s2.vars = s1.vars) :
    (∃ pre, s1.trace = pre ++ [Action.Cf (pushArgs (line126_appName testConfig W s0)
        testConfig.GetIsolationSegmentDomain)])
      ∧ issued s2 (AfterEach testConfig W s2) =
          [Action.Cf ["delete", line47_appName testConfig testSetup W s, "-f", "-r"]] := by
  obtain ⟨hv1, ht, -⟩ := iso_setup_passed testConfig testSetup W s s0 s1 hB hS
  obtain ⟨-, -, hv0⟩ := BeforeEach_passed testConfig testSetup W s s0 hB
  refine ⟨⟨_, ht⟩, ?_⟩
  rw [AfterEach_issued]
  simp [hC, hv, hv1, hv0]

/-! ## The order of the orchestration steps (C9) -/

theorem Shared_BeforeEach_issued (testConfig : Config) (testSetup : TestSetup) (W : World)
    (s : St) :
    issued s (Shared_BeforeEach testConfig testSetup W s) =
      sharedProvisionCalls testConfig testSetup s.vars
        ++ [.Cf (pushArgs s.vars.appName s.vars.appsDomain)] := by
  apply issued_append
  rw [Shared_BeforeEach_eq]
  split <;> simp

theorem Iso_BeforeEach_issued (testConfig : Config) (W : World) (s : St) :
    issued s (Iso_BeforeEach testConfig W s) =
      isoProvisionCalls testConfig W s ++
        [.PrefixedRandomName "SMOKES" "APP", .Cf ["target", "-s", s.vars.isoSpaceName]] ++
        (if (W.Cf (s.trace ++ (isoProvisionCalls testConfig W s ++
              [.PrefixedRandomName "SMOKES" "APP"]))
            ["target", "-s", s.vars.isoSpaceName]).ExitCodeWithin testConfig.GetDefaultTimeout
            = some 0 then
          [.Cf (pushArgs (line126_appName testConfig W s) s.vars.isoSegDomain)]
        else []) := by
  apply issued_append
  rw [Iso_BeforeEach_eq]
  split
  · split <;> simp
  · simp

/-- C9, as stated, fails: on `demoWorld`, with neither `UseExistingOrganization`
nor `UseExistingSpace` set, the steps of both scenarios are: entitle, assign,
target, push; the order entitle, target, assign, push does not occur. -/
theorem C9_counterexample_target_follows_assignment :
    demoConfig.GetUseExistingOrganization = false
      ∧ demoConfig.GetUseExistingSpace = false
      ∧ orchestration (issued demoContextState
          (Shared_BeforeEach demoConfig demoSetup demoWorld demoContextState))
          = [Step.entitle, Step.assign, Step.target, Step.push]
      ∧ ¬ List.Sublist [Step.entitle, Step.target, Step.assign, Step.push]
          (orchestration (issued demoContextState
            (Shared_BeforeEach demoConfig demoSetup demoWorld demoContextState)))
      ∧ orchestration (issued demoContextState
          (Iso_BeforeEach demoConfig demoWorld demoContextState))
          = [Step.entitle, Step.assign, Step.target, Step.push]
      ∧ ¬ List.Sublist [Step.entitle, Step.target, Step.assign, Step.push]
          (orchestration (issued demoContextState
            (Iso_BeforeEach demoConfig demoWorld demoContextState))) := by
  decide

/-- C9, amended: with neither `UseExistingOrganization` nor `UseExistingSpace`
set, the setup of each scenario entitles the org to the isolation segment, then
assigns the isolation segment to the space, then targets the space, then pushes
the app, and makes these steps only. In the shared scenario the calls are
exactly the ones listed. In the isolation-segment scenario the push is issued
if and only if `cf target` exits 0 within the default timeout; when it does
not, the setup is failed and ends with the `cf target`. So the push is never
issued before both the entitlement and the assignment have been made. -/
theorem C9_entitle_assign_target_push (testConfig : Config) (testSetup : TestSetup) (W : World)
    (s : St)
    (hO : testConfig.GetUseExistingOrganization = false)
    (hS : testConfig.GetUseExistingSpace = false) :
    issued s (Shared_BeforeEach testConfig testSetup W s) =
        [Action.AsUserBegin testSetup.ShortTimeout,
         Action.EntitleOrgToIsolationSegment s.vars.orgGUID sharedIsolationSegmentGUID
           testConfig.GetDefaultTimeout,
         Action.AssignIsolationSegmentToSpace s.vars.spaceGUID sharedIsolationSegmentGUID
           testConfig.GetDefaultTimeout,
         Action.AsUserEnd, Action.Login, Action.TargetSpace,
         Action.Cf (pushArgs s.vars.appName s.vars.appsDomain)]
      ∧ orchestration (issued s (Shared_BeforeEach testConfig testSetup W s))
          = [Step.entitle, Step.assign, Step.target, Step.push]
      ∧ issued s (Iso_BeforeEach testConfig W s) =
          [Action.GetIsolationSegmentGUID s.vars.isoSegName testConfig.GetDefaultTimeout,
           Action.EntitleOrgToIsolationSegment s.vars.orgGUID
             (line118_isoSegGUID testConfig W s) testConfig.GetDefaultTimeout,
           Action.AssignIsolationSegmentToSpace s.vars.isoSpaceGUID
             (line118_isoSegGUID testConfig W s) testConfig.GetDefaultTimeout,
           Action.PrefixedRandomName "SMOKES" "APP",
           Action.Cf ["target", "-s", s.vars.isoSpaceName]] ++
          (if (W.Cf (s.trace ++
                [Action.GetIsolationSegmentGUID s.vars.isoSegName testConfig.GetDefaultTimeout,
                 Action.EntitleOrgToIsolationSegment s.vars.orgGUID
                   (line118_isoSegGUID testConfig W s) testConfig.GetDefaultTimeout,
                 Action.AssignIsolationSegmentToSpace s.vars.isoSpaceGUID
                   (line118_isoSegGUID testConfig W s) testConfig.GetDefaultTimeout,
                 Action.PrefixedRandomName "SMOKES" "APP"])
              ["target", "-s", s.vars.isoSpaceName]).ExitCodeWithin
                testConfig.GetDefaultTimeout = some 0 then
            [Action.Cf (pushArgs (line126_appName testConfig W s) s.vars.isoSegDomain)]
          else [])
      ∧ orchestration (issued s (Iso_BeforeEach testConfig W s)) =
          [Step.entitle, Step.assign, Step.target] ++
          (if (W.Cf (s.trace ++
                [Action.GetIsolationSegmentGUID s.vars.isoSegName testConfig.GetDefaultTimeout,
                 Action.EntitleOrgToIsolationSegment s.vars.orgGUID
                   (line118_isoSegGUID testConfig W s) testConfig.GetDefaultTimeout,
                 Action.AssignIsolationSegmentToSpace s.vars.isoSpaceGUID
                   (line118_isoSegGUID testConfig W s) testConfig.GetDefaultTimeout,
                 Action.PrefixedRandomName "SMOKES" "APP"])
              ["target", "-s", s.vars.isoSpaceName]).ExitCodeWithin
                testConfig.GetDefaultTimeout = some 0 then
            [Step.push]
          else [])
      ∧ ((W.Cf (s.trace ++
                [Action.GetIsolationSegmentGUID s.vars.isoSegName testConfig.GetDefaultTimeout,
                 Action.EntitleOrgToIsolationSegment s.vars.orgGUID
                   (line118_isoSegGUID testConfig W s) testConfig.GetDefaultTimeout,
                 Action.AssignIsolationSegmentToSpace s.vars.isoSpaceGUID
                   (line118_isoSegGUID testConfig W s) testConfig.GetDefaultTimeout,
                 Action.PrefixedRandomName "SMOKES" "APP"])
              ["target", "-s", s.vars.isoSpaceName]).ExitCodeWithin
                testConfig.GetDefaultTimeout ≠ some 0 →
          (Iso_BeforeEach testConfig W s).isFailed = true) := by
  have h1 := Shared_BeforeEach_issued testConfig testSetup W s
  have h2 := Iso_BeforeEach_issued testConfig W s
  have h3 := Iso_BeforeEach_eq testConfig W s
  simp [sharedProvisionCalls, isoProvisionCalls, hO, hS] at h1 h2 h3
  refine ⟨?_, ?_, ?_, ?_, ?_⟩
  · rw [h1]
  · rw [h1]; simp [orchestration, Action.step, pushArgs]
  · rw [h2]; simp
  · rw [h2]
    split <;> simp [orchestration, Action.step, pushArgs]
  · intro hx
    rw [h3]
    simp [hx]

/-- C9 amended, at a concrete input: the steps of both scenarios on `demoWorld`,
where `cf target` exits 0. -/
theorem C9_witness :
    demoConfig.GetUseExistingOrganization = false
      ∧ demoConfig.GetUseExistingSpace = false
      ∧ orchestration (issued demoContextState
          (Shared_BeforeEach demoConfig demoSetup demoWorld demoContextState))
          = [Step.entitle, Step.assign, Step.target, Step.push]
      ∧ orchestration (issued demoContextState
          (Iso_BeforeEach demoConfig demoWorld demoContextState))
          = [Step.entitle, Step.assign, Step.target, Step.push] :=
  ⟨rfl, rfl,
    (C9_entitle_assign_target_push demoConfig demoSetup demoWorld demoContextState
      rfl rfl).2.1,
    (C9_entitle_assign_target_push demoConfig demoSetup demoWorld demoContextState
      rfl rfl).2.2.2.1⟩

/-! ## Which provisioning steps run (C10) -/

/-- The precondition checks that the top-level `BeforeEach` issues. -/
theorem BeforeEach_checks (testConfig : Config) (testSetup : TestSetup) (W : World) (s : St) :
    ((∃ g n t, Action.OrgEntitledToIsolationSegment g n t ∈
          issued s (BeforeEach testConfig testSetup W s))
        ↔ (testConfig.EnableIsolationSegmentTests = true
            ∧ testConfig.GetUseExistingOrganization = true
            ∧ testConfig.GetUseExistingSpace = true))
      ∧ ((∃ g t, Action.IsolationSegmentAssignedToSpace g t ∈
          issued s (BeforeEach testConfig testSetup W s))
        ↔ (testConfig.EnableIsolationSegmentTests = true
            ∧ testConfig.GetUseExistingOrganization = true
            ∧ testConfig.GetUseExistingSpace = true
            ∧ orgEntitled testConfig testSetup W s = true)) := by
  cases hE : testConfig.EnableIsolationSegmentTests
  · simp [BeforeEach, hE, issued]
  · cases hO : testConfig.GetUseExistingOrganization <;>
      cases hS : testConfig.GetUseExistingSpace <;>
      simp only [BeforeEach, hE, hO, hS, orgEntitled, lookupCalls, line42_orgGUID, issued] <;>
      simp <;>
      (repeat' split) <;>
      simp_all

/-- C10, as stated, fails: with the tests enabled and both flags set, on a
platform where the org is not entitled, the top-level `BeforeEach` issues the
entitlement check and no assignment check, and the isolation space is still
the regular space; with the tests disabled and both flags set it issues no
check at all; and with the tests disabled and both flags unset a test case of
the isolation-segment scenario issues nothing but the `cf delete`, so neither
entitles nor assigns. -/
theorem C10_counterexample_checks_need_more_than_the_flags :
    existingConfig.EnableIsolationSegmentTests = true
      ∧ existingConfig.GetUseExistingOrganization = true
      ∧ existingConfig.GetUseExistingSpace = true
      ∧ issued initialState (BeforeEach existingConfig demoSetup notEntitledWorld initialState)
          = [Action.GetOrgGUIDFromName "smoke-org" 30,
             Action.GetSpaceGUIDFromName "smoke-space" 30,
             Action.PrefixedRandomName "SMOKES" "APP",
             Action.OrgEntitledToIsolationSegment "guid-of-smoke-org" "iso-seg" 30]
      ∧ (BeforeEach existingConfig demoSetup notEntitledWorld initialState).state.vars.isoSpaceName
          = "smoke-space"
      ∧ disabledExistingConfig.GetUseExistingOrganization = true
      ∧ disabledExistingConfig.GetUseExistingSpace = true
      ∧ issued initialState
          (BeforeEach disabledExistingConfig demoSetup demoWorld initialState) = []
      ∧ disabledConfig.GetUseExistingOrganization = false
      ∧ disabledConfig.GetUseExistingSpace = false
      ∧ issued initialState
          (runSample disabledConfig demoSetup demoWorld .iso_reachable initialState)
          = [Action.Cf ["delete", "", "-f", "-r"]] := by
  decide

/-- C10, amended: which provisioning steps run is decided by the flags. The
setup of the isolation-segment scenario entitles the org if and only if
`UseExistingOrganization` is unset and assigns the segment, to the isolation
space, if and only if `UseExistingSpace` is unset. The setup of the shared
scenario entitles and assigns if and only if both flags are unset, and then to
the shared isolation segment GUID 933b4c58-120b-499a-b85d-4b6fc9e2903b. The
entitlement check is issued if and only if the tests are enabled and both flags
are set, and the assignment check if and only if, in addition, the entitlement
check held. When the top-level setup passed, the isolation space is the
configured isolation-segment space if both flags are set, and the regular space
(same name and GUID) otherwise. With exactly one flag set the top-level setup
issues no check and the setup of the shared scenario issues the push and
nothing else. -/
theorem C10_provisioning_is_decided_by_the_two_flags (testConfig : Config)
    (testSetup : TestSetup) (W : World) (s : St) :
    ((∃ g i t, Action.EntitleOrgToIsolationSegment g i t ∈
          issued s (Iso_BeforeEach testConfig W s))
        ↔ testConfig.GetUseExistingOrganization = false)
      ∧ ((∃ g i t, Action.AssignIsolationSegmentToSpace g i t ∈
          issued s (Iso_BeforeEach testConfig W s))
        ↔ testConfig.GetUseExistingSpace = false)
      ∧ (∀ g i t, Action.AssignIsolationSegmentToSpace g i t ∈
          issued s (Iso_BeforeEach testConfig W s) → g = s.vars.isoSpaceGUID)
      ∧ ((∃ g i t, Action.EntitleOrgToIsolationSegment g i t ∈
          issued s (Shared_BeforeEach testConfig testSetup W s))
        ↔ (testConfig.GetUseExistingOrganization = false
            ∧ testConfig.GetUseExistingSpace = false))
      ∧ ((∃ g i t, Action.AssignIsolationSegmentToSpace g i t ∈
          issued s (Shared_BeforeEach testConfig testSetup W s))
        ↔ (testConfig.GetUseExistingOrganization = false
            ∧ testConfig.GetUseExistingSpace = false))
      ∧ (∀ g i t, (Action.EntitleOrgToIsolationSegment g i t ∈
            issued s (Shared_BeforeEach testConfig testSetup W s)
          ∨ Action.AssignIsolationSegmentToSpace g i t ∈
            issued s (Shared_BeforeEach testConfig testSetup W s))
          → i = "933b4c58-120b-499a-b85d-4b6fc9e2903b")
      ∧ ((∃ g n t, Action.OrgEntitledToIsolationSegment g n t ∈
            issued s (BeforeEach testConfig testSetup W s))
          ↔ (testConfig.EnableIsolationSegmentTests = true
              ∧ testConfig.GetUseExistingOrganization = true
              ∧ testConfig.GetUseExistingSpace = true))
      ∧ ((∃ g t, Action.IsolationSegmentAssignedToSpace g t ∈
            issued s (BeforeEach testConfig testSetup W s))
          ↔ (testConfig.EnableIsolationSegmentTests = true
              ∧ testConfig.GetUseExistingOrganization = true
              ∧ testConfig.GetUseExistingSpace = true
              ∧ orgEntitled testConfig testSetup W s = true))
      ∧ (∀ s0, BeforeEach testConfig testSetup W s = .passed () s0 →
          ((testConfig.GetUseExistingOrganization = true
              ∧ testConfig.GetUseExistingSpace = true) →
            s0.vars.isoSpaceName = testConfig.GetIsolationSegmentSpace
              ∧ s0.vars.isoSpaceGUID = line57_isoSpaceGUID testConfig testSetup W s)
          ∧ (¬ (testConfig.GetUseExistingOrganization = true
              ∧ testConfig.GetUseExistingSpace = true) →
            s0.vars.isoSpaceName = s0.vars.spaceName
              ∧ s0.vars.isoSpaceGUID = s0.vars.spaceGUID))
      ∧ (testConfig.GetUseExistingOrganization ≠ testConfig.GetUseExistingSpace →
          issued s (Shared_BeforeEach testConfig testSetup W s)
              = [Action.Cf (pushArgs s.vars.appName s.vars.appsDomain)]
            ∧ (∀ a ∈ issued s (BeforeEach testConfig testSetup W s),
                (∀ g n t, a ≠ Action.OrgEntitledToIsolationSegment g n t)
                  ∧ (∀ g t, a ≠ Action.IsolationSegmentAssignedToSpace g t))) := by
  have h1 := Shared_BeforeEach_issued testConfig testSetup W s
  have h2 := Iso_BeforeEach_issued testConfig W s
  refine ⟨?_, ?_, ?_, ?_, ?_, ?_, ?_, ?_, ?_, ?_⟩
  · rw [h2]
    split <;>
      cases hO : testConfig.GetUseExistingOrganization <;>
      cases hS : testConfig.GetUseExistingSpace <;>
      simp [isoProvisionCalls, hO, hS, pushArgs]
  · rw [h2]
    split <;>
      cases hO : testConfig.GetUseExistingOrganization <;>
      cases hS : testConfig.GetUseExistingSpace <;>
      simp [isoProvisionCalls, hO, hS, pushArgs]
  · rw [h2]
    intro g i t
    split <;>
      cases hO : testConfig.GetUseExistingOrganization <;>
      cases hS : testConfig.GetUseExistingSpace <;>
      simp [isoProvisionCalls, hO, hS, pushArgs] <;>
      intro hg _ _ <;> exact hg
  · rw [h1]
    cases hO : testConfig.GetUseExistingOrganization <;>
      cases hS : testConfig.GetUseExistingSpace <;>
      simp [sharedProvisionCalls, hO, hS, pushArgs]
  · rw [h1]
    cases hO : testConfig.GetUseExistingOrganization <;>
      cases hS : testConfig.GetUseExistingSpace <;>
      simp [sharedProvisionCalls, hO, hS, pushArgs]
  · rw [h1]
    intro g i t
    cases hO : testConfig.GetUseExistingOrganization <;>
      cases hS : testConfig.GetUseExistingSpace <;>
      simp [sharedProvisionCalls, hO, hS, pushArgs, sharedIsolationSegmentGUID]
    rintro (⟨-, hi, -⟩ | ⟨-, hi, -⟩) <;> exact hi
  · exact (BeforeEach_checks testConfig testSetup W s).1
  · exact (BeforeEach_checks testConfig testSetup W s).2
  · intro s0 hB
    obtain ⟨-, -, hv⟩ := BeforeEach_passed testConfig testSetup W s s0 hB
    constructor
    · rintro ⟨hO, hS⟩
      simp [hv, hO, hS]
    · intro hn
      cases hO : testConfig.GetUseExistingOrganization <;>
        cases hS : testConfig.GetUseExistingSpace <;>
        simp_all
  · intro hne
    constructor
    · rw [h1]
      cases hO : testConfig.GetUseExistingOrganization <;>
        cases hS : testConfig.GetUseExistingSpace <;>
        simp_all [sharedProvisionCalls]
    · intro a ha
      obtain ⟨hc1, hc2⟩ := BeforeEach_checks testConfig testSetup W s
      constructor
      · intro g n t hEq
        subst hEq
        have := hc1.1 ⟨g, n, t, ha⟩
        exact hne (by rw [this.2.1, this.2.2])
      · intro g t hEq
        subst hEq
        have := hc2.1 ⟨g, t, ha⟩
        exact hne (by rw [this.2.1, this.2.2.1])

/-- C10 amended, at a concrete input: with the tests enabled and a pre-existing
org and space on `demoWorld`, where the org is entitled, the top-level setup
issues the entitlement check and the assignment check. -/
theorem C10_witness :
    existingConfig.EnableIsolationSegmentTests = true
      ∧ existingConfig.GetUseExistingOrganization = true
      ∧ existingConfig.GetUseExistingSpace = true
      ∧ orgEntitled existingConfig demoSetup demoWorld initialState = true
      ∧ (∃ g n t, Action.OrgEntitledToIsolationSegment g n t ∈
          issued initialState (BeforeEach existingConfig demoSetup demoWorld initialState))
      ∧ (∃ g t, Action.IsolationSegmentAssignedToSpace g t ∈
          issued initialState (BeforeEach existingConfig demoSetup demoWorld initialState)) :=
  ⟨rfl, rfl, rfl, rfl,
    (C10_provisioning_is_decided_by_the_two_flags existingConfig demoSetup demoWorld
      initialState).2.2.2.2.2.2.1.2 ⟨rfl, rfl, rfl⟩,
    (C10_provisioning_is_decided_by_the_two_flags existingConfig demoSetup demoWorld
      initialState).2.2.2.2.2.2.2.1.2 ⟨rfl, rfl, rfl, rfl⟩⟩

/-! ## The push (C7) -/

theorem sharedProvisionCalls_no_push (testConfig : Config) (testSetup : TestSetup) (v : Vars) :
    ∀ a ∈ sharedProvisionCalls testConfig testSetup v, a.isPush = false := by
  cases hO : testConfig.GetUseExistingOrganization <;>
    cases hS : testConfig.GetUseExistingSpace <;>
    simp [sharedProvisionCalls, hO, hS, Action.isPush]

theorem isoProvisionCalls_no_push (testConfig : Config) (W : World) (s : St) :
    ∀ a ∈ isoProvisionCalls testConfig W s ++
        [.PrefixedRandomName "SMOKES" "APP", .Cf ["target", "-s", s.vars.isoSpaceName]],
      a.isPush = false := by
  cases hO : testConfig.GetUseExistingOrganization <;>
    cases hS : testConfig.GetUseExistingSpace <;>
    simp [isoProvisionCalls, hO, hS, Action.isPush]

/-- The setup of a test case when the top-level `BeforeEach` passed. -/
theorem setup_of_passed (testConfig : Config) (testSetup : TestSetup) (W : World)
    (tc : TestCase) (s s0 : St) (hB : BeforeEach testConfig testSetup W s = .passed () s0) :
    tc.setup testConfig testSetup W s = tc.contextBeforeEach testConfig testSetup W s0 := by
  simp [TestCase.setup, hB]

/-- The setup of a test case when the top-level `BeforeEach` did not pass. -/
theorem setup_of_not_passed (testConfig : Config) (testSetup : TestSetup) (W : World)
    (tc : TestCase) (s : St) (hB : (BeforeEach testConfig testSetup W s).isPassed = false) :
    tc.setup testConfig testSetup W s = BeforeEach testConfig testSetup W s := by
  simp only [TestCase.setup, bind_apply]
  cases h : BeforeEach testConfig testSetup W s with
  | passed a s0 => simp [h] at hB
  | skipped m s0 => rfl
  | failed e s0 => rfl

/-- The calls of the `BeforeEach` of a `Context`, started in a state that the
top-level `BeforeEach` left. -/
theorem contextBeforeEach_issued (testConfig : Config) (testSetup : TestSetup) (W : World)
    (tc : TestCase) (s s0 : St) (hB : BeforeEach testConfig testSetup W s = .passed () s0) :
    ∃ pre name,
      (∀ a ∈ pre, a.isPush = false)
      ∧ ((issued s0 (tc.contextBeforeEach testConfig testSetup W s0) = pre
            ∧ (tc.contextBeforeEach testConfig testSetup W s0).isFailed = true)
        ∨ (issued s0 (tc.contextBeforeEach testConfig testSetup W s0) =
              pre ++ [.Cf (pushArgs name (tc.pushDomain testConfig))]
            ∧ ((tc.contextBeforeEach testConfig testSetup W s0).isPassed = true ↔
                (W.Cf (s0.trace ++ pre) (pushArgs name (tc.pushDomain testConfig))).ExitCodeWithin
                  testConfig.GetPushTimeout = some 0)
            ∧ ((tc.contextBeforeEach testConfig testSetup W s0).isPassed = false →
                (tc.contextBeforeEach testConfig testSetup W s0).isFailed = true))) := by
  obtain ⟨-, -, hv0⟩ := BeforeEach_passed testConfig testSetup W s s0 hB
  have hS : ∃ pre name,
      (∀ a ∈ pre, a.isPush = false)
      ∧ ((issued s0 (Shared_BeforeEach testConfig testSetup W s0) = pre
            ∧ (Shared_BeforeEach testConfig testSetup W s0).isFailed = true)
        ∨ (issued s0 (Shared_BeforeEach testConfig testSetup W s0) =
              pre ++ [.Cf (pushArgs name testConfig.GetAppsDomains)]
            ∧ ((Shared_BeforeEach testConfig testSetup W s0).isPassed = true ↔
                (W.Cf (s0.trace ++ pre) (pushArgs name testConfig.GetAppsDomains)).ExitCodeWithin
                  testConfig.GetPushTimeout = some 0)
            ∧ ((Shared_BeforeEach testConfig testSetup W s0).isPassed = false →
                (Shared_BeforeEach testConfig testSetup W s0).isFailed = true))) := by
    have hd : s0.vars.appsDomain = testConfig.GetAppsDomains := by simp [hv0]
    clear hv0
    refine ⟨sharedProvisionCalls testConfig testSetup s0.vars, s0.vars.appName,
      sharedProvisionCalls_no_push testConfig testSetup s0.vars, Or.inr ⟨?_, ?_, ?_⟩⟩
    · rw [Shared_BeforeEach_issued, hd]
    · rw [Shared_BeforeEach_eq, hd]
      split <;> simp [*]
    · rw [Shared_BeforeEach_eq]
      split <;> simp
  have hI : ∃ pre name,
      (∀ a ∈ pre, a.isPush = false)
      ∧ ((issued s0 (Iso_BeforeEach testConfig W s0) = pre
            ∧ (Iso_BeforeEach testConfig W s0).isFailed = true)
        ∨ (issued s0 (Iso_BeforeEach testConfig W s0) =
              pre ++ [.Cf (pushArgs name testConfig.GetIsolationSegmentDomain)]
            ∧ ((Iso_BeforeEach testConfig W s0).isPassed = true ↔
                (W.Cf (s0.trace ++ pre)
                  (pushArgs name testConfig.GetIsolationSegmentDomain)).ExitCodeWithin
                  testConfig.GetPushTimeout = some 0)
            ∧ ((Iso_BeforeEach testConfig W s0).isPassed = false →
                (Iso_BeforeEach testConfig W s0).isFailed = true))) := by
    have hd : s0.vars.isoSegDomain = testConfig.GetIsolationSegmentDomain := by simp [hv0]
    clear hv0
    refine ⟨isoProvisionCalls testConfig W s0 ++
        [.PrefixedRandomName "SMOKES" "APP", .Cf ["target", "-s", s0.vars.isoSpaceName]],
      line126_appName testConfig W s0, isoProvisionCalls_no_push testConfig W s0, ?_⟩
    by_cases hx : (W.Cf (s0.trace ++ (isoProvisionCalls testConfig W s0 ++
            [.PrefixedRandomName "SMOKES" "APP"]))
          ["target", "-s", s0.vars.isoSpaceName]).ExitCodeWithin testConfig.GetDefaultTimeout
          = some 0
    · right
      refine ⟨?_, ?_, ?_⟩
      · rw [Iso_BeforeEach_issued]; simp [hx, hd]
      · rw [Iso_BeforeEach_eq, hd]
        simp only [hx, if_true]
        split <;> simp_all
      · rw [Iso_BeforeEach_eq]
        simp only [hx, if_true]
        split <;> simp
    · left
      refine ⟨?_, ?_⟩
      · rw [Iso_BeforeEach_issued]; simp [hx]
      · rw [Iso_BeforeEach_eq]; simp [hx]
  cases tc with
  | shared_reachable => exact hS
  | shared_not_reachable => exact hS
  | iso_reachable => exact hI
  | iso_not_reachable => exact hI

/-- A block only adds calls: its trace is the trace it started with, followed
by the calls it issued. -/
theorem trace_eq_of_append {α : Type} (s : St) (r : Outcome α) (l : List Action)
    (h : r.state.trace = s.trace ++ l) : r.state.trace = s.trace ++ issued s r := by
  rw [issued_append s r l h, h]

theorem contextBeforeEach_trace (testConfig : Config) (testSetup : TestSetup) (W : World)
    (tc : TestCase) (s : St) :
    (tc.contextBeforeEach testConfig testSetup W s).state.trace =
      s.trace ++ issued s (tc.contextBeforeEach testConfig testSetup W s) := by
  have hS : ∃ l, (Shared_BeforeEach testConfig testSetup W s).state.trace = s.trace ++ l := by
    rw [Shared_BeforeEach_eq]
    split <;> exact ⟨_, rfl⟩
  have hI : ∃ l, (Iso_BeforeEach testConfig W s).state.trace = s.trace ++ l := by
    rw [Iso_BeforeEach_eq]
    split
    · split <;> exact ⟨_, rfl⟩
    · exact ⟨_, rfl⟩
  cases tc with
  | shared_reachable => obtain ⟨l, h⟩ := hS; exact trace_eq_of_append s _ l h
  | shared_not_reachable => obtain ⟨l, h⟩ := hS; exact trace_eq_of_append s _ l h
  | iso_reachable => obtain ⟨l, h⟩ := hI; exact trace_eq_of_append s _ l h
  | iso_not_reachable => obtain ⟨l, h⟩ := hI; exact trace_eq_of_append s _ l h

/-- The `It` block of a test case issues no push. -/
theorem it_trace (W : World) (tc : TestCase) (s : St) :
    ∃ l, (tc.it W s).state.trace = s.trace ++ l ∧ ∀ a ∈ l, a.isPush = false := by
  have key : ∀ (r : Outcome Unit) (host domain : String) (rest : List Action),
      r.state.trace = s.trace ++ (.SendRequestWithSpoofedHeader host domain :: rest) →
      (∀ a ∈ rest, a = .ReadAll ∨ a = .BodyClose) →
      ∃ l, r.state.trace = s.trace ++ l ∧ ∀ a ∈ l, a.isPush = false := by
    intro r host domain rest hr hrest
    refine ⟨_ :: rest, hr, ?_⟩
    intro a ha
    rcases List.mem_cons.1 ha with rfl | ha
    · rfl
    · rcases hrest a ha with rfl | rfl <;> rfl
  cases tc with
  | shared_reachable =>
    obtain ⟨rest, hr, hrest⟩ := Shared_It_reachable_trace W s
    exact key _ _ _ rest hr hrest
  | shared_not_reachable =>
    obtain ⟨rest, hr, hrest⟩ := Shared_It_not_reachable_trace W s
    exact key _ _ _ rest hr hrest
  | iso_reachable =>
    obtain ⟨rest, hr, hrest⟩ := Iso_It_reachable_trace W s
    exact key _ _ _ rest hr hrest
  | iso_not_reachable =>
    obtain ⟨rest, hr, hrest⟩ := Iso_It_not_reachable_trace W s
    exact key _ _ _ rest hr hrest

/-- The calls of the setup of a test case: calls that are no push, then, unless
the setup ended before, the push of an app to the domain of the scenario, which
decides whether the setup passes. -/
theorem setup_issued (testConfig : Config) (testSetup : TestSetup) (W : World)
    (tc : TestCase) (s : St) :
    (tc.setup testConfig testSetup W s).state.trace =
        s.trace ++ issued s (tc.setup testConfig testSetup W s)
      ∧ ∃ pre name,
        (∀ a ∈ pre, a.isPush = false)
        ∧ ((issued s (tc.setup testConfig testSetup W s) = pre
              ∧ (tc.setup testConfig testSetup W s).isPassed = false)
          ∨ (issued s (tc.setup testConfig testSetup W s) =
                pre ++ [.Cf (pushArgs name (tc.pushDomain testConfig))]
              ∧ ((tc.setup testConfig testSetup W s).isPassed = true ↔
                  (W.Cf (s.trace ++ pre)
                    (pushArgs name (tc.pushDomain testConfig))).ExitCodeWithin
                    testConfig.GetPushTimeout = some 0)
              ∧ ((tc.setup testConfig testSetup W s).isPassed = false →
                  (tc.setup testConfig testSetup W s).isFailed = true))) := by
  obtain ⟨l0, hl0, hno⟩ := BeforeEach_trace testConfig testSetup W s
  cases hB : BeforeEach testConfig testSetup W s with
  | passed u s0 =>
    cases u
    rw [hB] at hl0
    simp only [state_passed] at hl0
    have hsetup := setup_of_passed testConfig testSetup W tc s s0 hB
    have hct := contextBeforeEach_trace testConfig testSetup W tc s0
    obtain ⟨pre, name, hpre, hcases⟩ :=
      contextBeforeEach_issued testConfig testSetup W tc s s0 hB
    have htr : (tc.setup testConfig testSetup W s).state.trace =
        s.trace ++ (l0 ++ issued s0 (tc.contextBeforeEach testConfig testSetup W s0)) := by
      rw [hsetup, hct, hl0, List.append_assoc]
    have hiss := issued_append s _ _ htr
    refine ⟨trace_eq_of_append s _ _ htr, l0 ++ pre, name, ?_, ?_⟩
    · intro a ha
      rcases List.mem_append.1 ha with h | h
      · exact hno a h
      · exact hpre a h
    · rcases hcases with ⟨h1, h2⟩ | ⟨h1, h2, h3⟩
      · left
        refine ⟨by rw [hiss, h1], ?_⟩
        rw [hsetup]
        cases hc : tc.contextBeforeEach testConfig testSetup W s0 <;> simp [hc] at h2 ⊢
      · right
        refine ⟨by rw [hiss, h1, List.append_assoc], ?_, ?_⟩
        · rw [hsetup, h2, hl0, List.append_assoc]
        · rw [hsetup]; exact h3
  | skipped m s0 =>
    have hnp : (BeforeEach testConfig testSetup W s).isPassed = false := by simp [hB]
    have hsetup := setup_of_not_passed testConfig testSetup W tc s hnp
    rw [hsetup]
    exact ⟨trace_eq_of_append s _ l0 hl0, l0, "", hno,
      Or.inl ⟨issued_append s _ l0 hl0, hnp⟩⟩
  | failed e s0 =>
    have hnp : (BeforeEach testConfig testSetup W s).isPassed = false := by simp [hB]
    have hsetup := setup_of_not_passed testConfig testSetup W tc s hnp
    rw [hsetup]
    exact ⟨trace_eq_of_append s _ l0 hl0, l0, "", hno,
      Or.inl ⟨issued_append s _ l0 hl0, hnp⟩⟩

theorem AfterEach_trace (testConfig : Config) (W : World) (s : St) :
    (AfterEach testConfig W s).state.trace = s.trace ++ issued s (AfterEach testConfig W s) := by
  have : ∃ l, (AfterEach testConfig W s).state.trace = s.trace ++ l := by
    rw [AfterEach_eq]
    split
    · split <;> exact ⟨_, rfl⟩
    · exact ⟨[], by simp⟩
  obtain ⟨l, h⟩ := this
  exact trace_eq_of_append s _ l h

theorem runSample_state_trace (testConfig : Config) (testSetup : TestSetup) (W : World)
    (tc : TestCase) (s : St) :
    (runSample testConfig testSetup W tc s).state.trace =
      (AfterEach testConfig W (tc.blocks testConfig testSetup W s).state).state.trace := by
  rw [runSample_eq]
  cases tc.blocks testConfig testSetup W s <;> rfl

/-- A test case passes only if its setup passed. -/
theorem setup_passed_of_runSample_passed (testConfig : Config) (testSetup : TestSetup)
    (W : World) (tc : TestCase) (s : St)
    (h : (runSample testConfig testSetup W tc s).isPassed = true) :
    (tc.setup testConfig testSetup W s).isPassed = true := by
  rw [runSample_eq] at h
  simp only [TestCase.blocks, bind_apply] at h
  cases hs : tc.setup testConfig testSetup W s with
  | passed a s1 => rfl
  | skipped m s1 => simp [hs] at h
  | failed e s1 => simp [hs] at h

/-- A test case whose setup failed is failed. -/
theorem runSample_failed_of_setup_failed (testConfig : Config) (testSetup : TestSetup)
    (W : World) (tc : TestCase) (s : St)
    (h : (tc.setup testConfig testSetup W s).isFailed = true) :
    (runSample testConfig testSetup W tc s).isFailed = true := by
  rw [runSample_eq]
  simp only [TestCase.blocks, bind_apply]
  cases hs : tc.setup testConfig testSetup W s with
  | passed a s1 => simp [hs] at h
  | skipped m s1 => simp [hs] at h
  | failed e s1 => simp

/-- The calls of a test case are the calls of its setup, followed by calls that
are no push. -/
theorem runSample_issued (testConfig : Config) (testSetup : TestSetup) (W : World)
    (tc : TestCase) (s : St) :
    ∃ l, issued s (runSample testConfig testSetup W tc s) =
        issued s (tc.setup testConfig testSetup W s) ++ l
      ∧ ∀ a ∈ l, a.isPush = false := by
  have hS := (setup_issued testConfig testSetup W tc s).1
  have hA := AfterEach_trace testConfig W (tc.blocks testConfig testSetup W s).state
  have hAi := AfterEach_issued testConfig W (tc.blocks testConfig testSetup W s).state
  have hR := runSample_state_trace testConfig testSetup W tc s
  have hb : ∃ lI, (tc.blocks testConfig testSetup W s).state.trace =
      (tc.setup testConfig testSetup W s).state.trace ++ lI ∧ ∀ a ∈ lI, a.isPush = false := by
    simp only [TestCase.blocks, bind_apply]
    cases hs : tc.setup testConfig testSetup W s with
    | passed a s1 =>
      obtain ⟨l, hl, hno⟩ := it_trace W tc s1
      exact ⟨l, by simpa using hl, hno⟩
    | skipped m s1 => exact ⟨[], by simp⟩
    | failed e s1 => exact ⟨[], by simp⟩
  obtain ⟨lI, hlI, hnoI⟩ := hb
  refine ⟨lI ++ issued (tc.blocks testConfig testSetup W s).state
      (AfterEach testConfig W (tc.blocks testConfig testSetup W s).state), ?_, ?_⟩
  · apply issued_append
    rw [hR, hA, hlI, hS]
    simp
  · intro a ha
    rcases List.mem_append.1 ha with h | h
    · exact hnoI a h
    · rw [hAi] at h
      cases hC : testConfig.Cleanup <;> simp [hC] at h
      subst h
      rfl

/-- C7: every push issued in a test case has the argument list
`push <app> -p ../../assets/binary -b binary_buildpack -d <domain> -c ./app`,
where the domain is the apps domain in the shared scenario and the isolation
segment domain in the isolation-segment scenario. A test case that passes has
issued such a push as the last call of its setup, and the push exited 0 within
the push timeout; a test case whose setup issued the push, as its last call,
without the push exiting 0 within the push timeout is failed. -/
theorem C7_push_shape_and_exit (testConfig : Config) (testSetup : TestSetup) (W : World)
    (tc : TestCase) (s : St) :
    (∀ a ∈ issued s (runSample testConfig testSetup W tc s), a.isPush = true →
        ∃ appName, a = Action.Cf ["push", appName, "-p", "../../assets/binary", "-b",
          "binary_buildpack", "-d", tc.pushDomain testConfig, "-c", "./app"])
      ∧ ((runSample testConfig testSetup W tc s).isPassed = true →
          ∃ pre appName,
            issued s (tc.setup testConfig testSetup W s) =
                pre ++ [Action.Cf (pushArgs appName (tc.pushDomain testConfig))]
              ∧ (W.Cf (s.trace ++ pre)
                  (pushArgs appName (tc.pushDomain testConfig))).ExitCodeWithin
                  testConfig.GetPushTimeout = some 0)
      ∧ (∀ pre args,
          issued s (tc.setup testConfig testSetup W s) = pre ++ [Action.Cf ("push" :: args)] →
          (W.Cf (s.trace ++ pre) ("push" :: args)).ExitCodeWithin testConfig.GetPushTimeout
            ≠ some 0 →
          (runSample testConfig testSetup W tc s).isFailed = true) := by
  obtain ⟨-, pre, name, hpre, hcases⟩ := setup_issued testConfig testSetup W tc s
  obtain ⟨l, hl, hno⟩ := runSample_issued testConfig testSetup W tc s
  refine ⟨?_, ?_, ?_⟩
  · intro a ha hp
    rw [hl] at ha
    rcases List.mem_append.1 ha with h | h
    · rcases hcases with ⟨h1, -⟩ | ⟨h1, -, -⟩
      · rw [h1] at h
        rw [hpre a h] at hp
        exact absurd hp (by simp)
      · rw [h1] at h
        rcases List.mem_append.1 h with h' | h'
        · rw [hpre a h'] at hp
          exact absurd hp (by simp)
        · exact ⟨name, by simpa [pushArgs] using h'⟩
    · rw [hno a h] at hp
      exact absurd hp (by simp)
  · intro hp
    have hsp := setup_passed_of_runSample_passed testConfig testSetup W tc s hp
    rcases hcases with ⟨-, h2⟩ | ⟨h1, h2, -⟩
    · rw [hsp] at h2
      exact absurd h2 (by simp)
    · exact ⟨pre, name, h1, h2.1 hsp⟩
  · intro pre' args hiss hne
    rcases hcases with ⟨h1, -⟩ | ⟨h1, h2, h3⟩
    · have hmem : Action.Cf ("push" :: args) ∈ pre := by
        rw [← h1, hiss]; simp
      have := hpre _ hmem
      simp [Action.isPush] at this
    · rw [h1] at hiss
      obtain ⟨hpp, hargs⟩ := List.append_inj' hiss rfl
      simp only [List.cons.injEq, and_true, Action.Cf.injEq] at hargs
      apply runSample_failed_of_setup_failed
      apply h3
      cases hsp : (tc.setup testConfig testSetup W s).isPassed with
      | false => rfl
      | true =>
        have := h2.1 hsp
        rw [hpp, hargs] at this
        exact absurd this hne

/-- C7, at a concrete input: the test case "is reachable from the shared router"
passes on `demoWorld`, and the push of its setup exited 0. -/
theorem C7_witness :
    (runSample demoConfig demoSetup demoWorld .shared_reachable initialState).isPassed = true
      ∧ ∃ pre appName,
          issued initialState
              (TestCase.setup demoConfig demoSetup demoWorld .shared_reachable initialState) =
            pre ++ [Action.Cf (pushArgs appName "apps.example.com")]
          ∧ (demoWorld.Cf ([] ++ pre) (pushArgs appName "apps.example.com")).ExitCodeWithin 120
              = some 0 :=
  ⟨rfl, (C7_push_shape_and_exit demoConfig demoSetup demoWorld .shared_reachable
    initialState).2.1 rfl⟩

/-! ## The verdict of a test case (C4) -/

/-- The `It` block of a test case, once the probe has returned the response
`r`: its verdict, and its calls. -/
theorem it_of_response (W : World) (tc : TestCase) (s : St) (r : Response)
    (hp : W.SendRequestWithSpoofedHeader s.trace (tc.targetHostname s.vars)
      (tc.probedDomain s.vars) = some r) :
    ((tc.it W s).isPassed = true ↔ tc.accepts r = true)
      ∧ ((tc.it W s).isPassed = false → (tc.it W s).isFailed = true)
      ∧ (r.StatusCode ≠ 200 → Action.ReadAll ∉ issued s (tc.it W s))
      ∧ (tc.it W s).state.trace = s.trace ++ issued s (tc.it W s) := by
  have hv := It_verdict_of_response W s r
  obtain ⟨l, hl, -⟩ := it_trace W tc s
  refine ⟨?_, ?_, ?_, trace_eq_of_append s _ l hl⟩
  · cases tc
    · refine (hv.1 hp).1.trans ?_
      cases herr : r.err <;> simp [TestCase.accepts, herr]
    · refine (hv.2.2.1 hp).1.trans ?_
      simp [TestCase.accepts]
    · refine (hv.2.1 hp).1.trans ?_
      cases herr : r.err <;> simp [TestCase.accepts, herr]
    · refine (hv.2.2.2 hp).1.trans ?_
      simp [TestCase.accepts]
  · cases tc
    · exact (hv.1 hp).2.1
    · exact (hv.2.2.1 hp).2
    · exact (hv.2.1 hp).2.1
    · exact (hv.2.2.2 hp).2
  · intro h200
    cases tc
    · exact (hv.1 hp).2.2 h200
    · by_cases h404 : r.StatusCode = 404 <;>
        simp [TestCase.it, Shared_It_not_reachable, issued, h404,
          show W.SendRequestWithSpoofedHeader s.trace (s.vars.appName ++ "." ++ s.vars.appsDomain)
            s.vars.isoSegDomain = some r from hp]
    · exact (hv.2.1 hp).2.2 h200
    · by_cases h404 : r.StatusCode = 404 <;>
        simp [TestCase.it, Iso_It_not_reachable, issued, h404,
          show W.SendRequestWithSpoofedHeader s.trace
            (s.vars.ctx_appName ++ "." ++ s.vars.isoSegDomain) s.vars.appsDomain = some r from hp]

/-- The top-level `BeforeEach` does not read a response body. -/
theorem BeforeEach_no_ReadAll (testConfig : Config) (testSetup : TestSetup) (W : World)
    (s : St) :
    ∃ l, (BeforeEach testConfig testSetup W s).state.trace = s.trace ++ l
      ∧ Action.ReadAll ∉ l := by
  cases hE : testConfig.EnableIsolationSegmentTests
  · exact ⟨[], by simp [BeforeEach, hE]⟩
  · cases hO : testConfig.GetUseExistingOrganization <;>
      cases hS : testConfig.GetUseExistingSpace <;>
      simp only [BeforeEach, hE, hO, hS] <;>
      simp <;>
      (repeat' split) <;>
      exact ⟨_, rfl, by simp⟩

/-- The setup of a test case does not read a response body. -/
theorem setup_no_ReadAll (testConfig : Config) (testSetup : TestSetup) (W : World)
    (tc : TestCase) (s : St) :
    Action.ReadAll ∉ issued s (tc.setup testConfig testSetup W s) := by
  obtain ⟨l0, hl0, hno⟩ := BeforeEach_no_ReadAll testConfig testSetup W s
  cases hB : BeforeEach testConfig testSetup W s with
  | passed u s0 =>
    cases u
    rw [hB] at hl0
    simp only [state_passed] at hl0
    have hsetup := setup_of_passed testConfig testSetup W tc s s0 hB
    have hct := contextBeforeEach_trace testConfig testSetup W tc s0
    have htr : (tc.setup testConfig testSetup W s).state.trace =
        s.trace ++ (l0 ++ issued s0 (tc.contextBeforeEach testConfig testSetup W s0)) := by
      rw [hsetup, hct, hl0, List.append_assoc]
    rw [issued_append s _ _ htr]
    intro hmem
    rcases List.mem_append.1 hmem with h | h
    · exact hno h
    · have hS : Action.ReadAll ∉ issued s0 (Shared_BeforeEach testConfig testSetup W s0) := by
        rw [Shared_BeforeEach_issued]
        cases hO : testConfig.GetUseExistingOrganization <;>
          cases hS : testConfig.GetUseExistingSpace <;>
          simp [sharedProvisionCalls, hO, hS]
      have hI : Action.ReadAll ∉ issued s0 (Iso_BeforeEach testConfig W s0) := by
        rw [Iso_BeforeEach_issued]
        split <;>
          cases hO : testConfig.GetUseExistingOrganization <;>
          cases hS : testConfig.GetUseExistingSpace <;>
          simp [isoProvisionCalls, hO, hS]
      cases tc
      · exact hS h
      · exact hS h
      · exact hI h
      · exact hI h
  | skipped m s0 =>
    have hnp : (BeforeEach testConfig testSetup W s).isPassed = false := by simp [hB]
    rw [setup_of_not_passed testConfig testSetup W tc s hnp, issued_append s _ l0 hl0]
    exact hno
  | failed e s0 =>
    have hnp : (BeforeEach testConfig testSetup W s).isPassed = false := by simp [hB]
    rw [setup_of_not_passed testConfig testSetup W tc s hnp, issued_append s _ l0 hl0]
    exact hno

/-- C4, as stated, fails: on a platform where everything passes but `cf delete`
exits 1, with `Cleanup` set, the probe of the test case "is reachable from the
shared router" returns status 200 with a body that is read without error and
contains "Hello from a binary", the `It` block passes, and the test case is
failed. -/
theorem C4_counterexample_verdict_depends_on_cleanup :
    TestCase.setup demoConfig demoSetup deleteFailsWorld .shared_reachable initialState
        = .passed () deleteFailsSharedState
      ∧ deleteFailsWorld.SendRequestWithSpoofedHeader deleteFailsSharedState.trace
          (TestCase.targetHostname deleteFailsSharedState.vars .shared_reachable)
          (TestCase.probedDomain deleteFailsSharedState.vars .shared_reachable)
          = some helloResponse
      ∧ helloResponse.StatusCode = 200
      ∧ helloResponse.err = none
      ∧ ContainSubstring helloResponse.htmlData "Hello from a binary" = true
      ∧ (TestCase.it deleteFailsWorld .shared_reachable deleteFailsSharedState).isPassed = true
      ∧ (runSample demoConfig demoSetup deleteFailsWorld .shared_reachable
          initialState).isPassed = false
      ∧ (runSample demoConfig demoSetup deleteFailsWorld .shared_reachable
          initialState).isFailed = true :=
  ⟨rfl, rfl, rfl, rfl, by decide, by decide, by decide, by decide⟩

/-- C4, amended: for a test case whose setup passed and whose probe returned the
response `r`, the verdict of the `It` block is a function of the response only,
and the verdict of the test case is a function of the response and of the
cleanup. A "reachable" `It` block passes if and only if the status code is 200,
the body is read without error and the body contains "Hello from a binary"; a
"not reachable" one passes if and only if the status code is 404, whatever the
body; otherwise the block fails. The test case passes if and only if its `It`
block passes and, when `Cleanup` is set, the delete of the `AfterEach` exits 0
within the default timeout; otherwise the test case is failed. On a status
other than 200 no test case reads the body, and a "reachable" one is failed. -/
theorem C4_verdict_of_response_and_cleanup (testConfig : Config) (testSetup : TestSetup)
    (W : World) (tc : TestCase) (s s1 : St) (r : Response)
    (hsetup : tc.setup testConfig testSetup W s = .passed () s1)
    (hp : W.SendRequestWithSpoofedHeader s1.trace (tc.targetHostname s1.vars)
      (tc.probedDomain s1.vars) = some r) :
    ((tc.it W s1).isPassed = true ↔ tc.accepts r = true)
      ∧ ((tc.it W s1).isPassed = false → (tc.it W s1).isFailed = true)
      ∧ ((runSample testConfig testSetup W tc s).isPassed = true ↔
          (tc.accepts r = true
            ∧ (testConfig.Cleanup = true →
                (W.Cf (tc.it W s1).state.trace
                  ["delete", (tc.it W s1).state.vars.appName, "-f", "-r"]).ExitCodeWithin
                  testConfig.GetDefaultTimeout = some 0)))
      ∧ ((runSample testConfig testSetup W tc s).isPassed = false →
          (runSample testConfig testSetup W tc s).isFailed = true)
      ∧ (r.StatusCode ≠ 200 →
          Action.ReadAll ∉ issued s (runSample testConfig testSetup W tc s))
      ∧ (r.StatusCode ≠ 200 →
          (tc = TestCase.shared_reachable ∨ tc = TestCase.iso_reachable) →
          (runSample testConfig testSetup W tc s).isFailed = true) := by
  obtain ⟨hacc, hfail, hread, htrace⟩ := it_of_response W tc s1 r hp
  have hblocks : tc.blocks testConfig testSetup W s = tc.it W s1 := by
    simp [TestCase.blocks, hsetup]
  have hrun := runSample_eq testConfig testSetup W tc s
  rw [hblocks] at hrun
  have hverdict : ((runSample testConfig testSetup W tc s).isPassed = true ↔
        (tc.accepts r = true
          ∧ (testConfig.Cleanup = true →
              (W.Cf (tc.it W s1).state.trace
                ["delete", (tc.it W s1).state.vars.appName, "-f", "-r"]).ExitCodeWithin
                testConfig.GetDefaultTimeout = some 0)))
      ∧ ((runSample testConfig testSetup W tc s).isPassed = false →
          (runSample testConfig testSetup W tc s).isFailed = true) := by
    rw [hrun, ← hacc]
    cases hit : tc.it W s1 with
    | passed u s2 =>
      simp only [state_passed, isPassed_passed, true_and]
      rw [AfterEach_eq]
      cases hC : testConfig.Cleanup
      · simp
      · by_cases hx : (W.Cf s2.trace ["delete", s2.vars.appName, "-f", "-r"]).ExitCodeWithin
            testConfig.GetDefaultTimeout = some 0 <;> simp [hx]
    | skipped m s2 =>
      rw [hit] at hfail
      simp at hfail
    | failed e s2 => simp
  refine ⟨hacc, hfail, hverdict.1, hverdict.2, ?_, ?_⟩
  · intro h200
    have hS := (setup_issued testConfig testSetup W tc s).1
    rw [hsetup] at hS
    simp only [state_passed] at hS
    have hA := AfterEach_trace testConfig W (tc.it W s1).state
    have hR := runSample_state_trace testConfig testSetup W tc s
    rw [hblocks] at hR
    have htr : (runSample testConfig testSetup W tc s).state.trace = s.trace ++
        (issued s (Outcome.passed () s1 : Outcome Unit) ++ issued s1 (tc.it W s1)
          ++ issued (tc.it W s1).state (AfterEach testConfig W (tc.it W s1).state)) := by
      rw [hR, hA, htrace, hS]
      simp
    rw [issued_append s _ _ htr]
    intro hmem
    rcases List.mem_append.1 hmem with h | h
    · rcases List.mem_append.1 h with h' | h'
      · have := setup_no_ReadAll testConfig testSetup W tc s
        rw [hsetup] at this
        exact this h'
      · exact hread h200 h'
    · rw [AfterEach_issued] at h
      cases hC : testConfig.Cleanup <;> simp [hC] at h
  · intro h200 hreach
    apply hverdict.2
    cases hpass : (runSample testConfig testSetup W tc s).isPassed with
    | false => rfl
    | true =>
      have hacc' := (hverdict.1.1 hpass).1
      rcases hreach with rfl | rfl <;> simp [TestCase.accepts, h200] at hacc'

/-- C4 amended, at a concrete input: on `demoWorld` the shared app answers 404
through the isolation-segment router and the delete exits 0, so the test case
"is not reachable from the isolation segment router" passes. -/
theorem C4_witness :
    TestCase.setup demoConfig demoSetup demoWorld .shared_not_reachable initialState
        = .passed () demoSharedState
      ∧ demoWorld.SendRequestWithSpoofedHeader demoSharedState.trace
          (TestCase.targetHostname demoSharedState.vars .shared_not_reachable)
          (TestCase.probedDomain demoSharedState.vars .shared_not_reachable)
          = some notFoundResponse
      ∧ TestCase.accepts .shared_not_reachable notFoundResponse = true
      ∧ (runSample demoConfig demoSetup demoWorld .shared_not_reachable initialState).isPassed
          = true :=
  ⟨rfl, rfl, rfl,
    (C4_verdict_of_response_and_cleanup demoConfig demoSetup demoWorld .shared_not_reachable
      initialState demoSharedState notFoundResponse rfl rfl).2.2.1.2 ⟨rfl, fun _ => rfl⟩⟩

end IsolationSegments
